import Mathlib

/-!
# Verification of the prostate-cancer clinical calculator (`helper.py`)

Shallow embedding of the rule-cascade decision engine of
`prostate-cancer/scripts/helper.py` and proofs about its classifiers.

Modelling conventions:
* Python `str` values that the code transforms character by character
  (stage tokens, disease-state tags, Gleason strings) are modelled as
  `List Char` (abbreviated `Str`); `str.upper`, `str.lower`, `str.strip`,
  `str.replace`, `str.startswith` and slicing are modelled by the
  executable functions `pyUpper`, `pyLower`, `pyStrip`, `pyReplace`,
  `List.isPrefixOf` and `List.drop` below.
* Python floats are modelled as exact rationals `ℚ` (the decision logic
  only compares against decimal constants); the log-linear PSADT
  regression, which genuinely needs logarithms, is modelled over `ℝ`
  with `Real.log`.
* Python ints are modelled as `ℤ` (core counts as `ℕ`), optional
  parameters as `Option _`.
* Result dictionaries become structures / inductives.  Human-readable
  message strings are kept as fixed `String` tags: the interpolated
  numeric values and the Polish wording are presentation only and are
  abbreviated, one distinct tag per distinct message site, so that
  distinctness of messages is preserved.
* Presentation-only dictionary entries (textual stage descriptions,
  `tnm_summary`, `drug_pl`, `dosing`, `treatment_protocol`,
  `treatment_options`, `calculator_url`) are omitted.
-/

/-! ## Model of the Python string primitives -/

abbrev Str := List Char

/-- Model of Python `str.upper()` (ASCII). -/
def pyUpper (s : Str) : Str := s.map Char.toUpper

/-- Model of Python `str.lower()` (ASCII). -/
def pyLower (s : Str) : Str := s.map Char.toLower

/-- Whitespace test used by `pyStrip`. -/
def isWs (c : Char) : Bool := c = ' ' || c = '\t' || c = '\n' || c = '\r'

/-- Model of Python `str.strip()`. -/
def pyStrip (s : Str) : Str :=
  ((s.dropWhile isWs).reverse.dropWhile isWs).reverse

/-- Fuelled worker for `pyReplace`; the fuel `s.length` is enough because
every step consumes at least one character of the remaining input. -/
def replaceFuel : Nat → Str → Str → Str → Str
  | 0, s, _, _ => s
  | _ + 1, [], _, _ => []
  | n + 1, c :: rest, pat, rep =>
    if pat ≠ [] ∧ pat.isPrefixOf (c :: rest) then
      rep ++ replaceFuel n ((c :: rest).drop pat.length) pat rep
    else
      c :: replaceFuel n rest pat rep

/-- Model of Python `str.replace` (all non-overlapping occurrences,
left to right). -/
def pyReplace (s pat rep : Str) : Str := replaceFuel s.length s pat rep

/-! Stage-token constants (uppercase forms compared against in the code). -/

def sT1 : Str := "T1".data
def sT1A : Str := "T1A".data
def sT1B : Str := "T1B".data
def sT1C : Str := "T1C".data
def sT2 : Str := "T2".data
def sT2A : Str := "T2A".data
def sT2B : Str := "T2B".data
def sT2C : Str := "T2C".data
def sT3 : Str := "T3".data
def sT3A : Str := "T3A".data
def sT3B : Str := "T3B".data
def sT4 : Str := "T4".data
def sTX : Str := "TX".data
def sN0 : Str := "N0".data
def sN1 : Str := "N1".data
def sNX : Str := "NX".data
def sM0 : Str := "M0".data
def sM1 : Str := "M1".data
def sM1A : Str := "M1A".data
def sM1B : Str := "M1B".data
def sM1C : Str := "M1C".data

/-! ## NCCN risk classification (`calculate_nccn_risk`, helper.py lines 21-107) -/

/-- The T-stage normalisation expression shared verbatim by
`calculate_nccn_risk` (line 60), `calculate_eau_risk` (line 127),
`calculate_capra` (line 507) and the LNI nomogram helpers:
`t_stage.upper().replace("C", "").replace("CT", "T")`. -/
def nccnNormalizeT (s : Str) : Str :=
  pyReplace (pyReplace (pyUpper s) ("C".data) ("".data)) ("CT".data) ("T".data)

/-- `calculate_nccn_risk(psa, grade_group, t_stage, positive_cores,
total_cores, max_core_involvement, psa_density, primary_gleason,
n_stage, m_stage)`.  Returns the risk-group label string. -/
def calculate_nccn_risk (psa : ℚ) (grade_group : ℤ) (t_stage : Str)
    (positive_cores total_cores : ℕ) (max_core_involvement : ℚ)
    (psa_density : ℚ) (primary_gleason : Option ℤ)
    (n_stage m_stage : Str) : String :=
  if m_stage ≠ sM0 then "Metastatic"
  else if n_stage = sN1 then "Regional"
  else
    let t := nccnNormalizeT t_stage
    let pct_positive : ℚ := if 0 < total_cores then mkRat (100 * positive_cores) total_cores else 0
    let intermediate_factors : ℤ :=
      (if t = sT2B ∨ t = sT2C then 1 else 0) +
      (if grade_group = 2 ∨ grade_group = 3 then 1 else 0) +
      (if 10 ≤ psa ∧ psa ≤ 20 then 1 else 0)
    let high_risk_factors : ℤ :=
      (if t = sT3A then 1 else 0) +
      (if 4 ≤ grade_group then 1 else 0) +
      (if 20 < psa then 1 else 0)
    if t = sT3B ∨ t = sT4 then "Very High"
    else if primary_gleason = some 5 then "Very High"
    else if 4 < positive_cores ∧ 4 ≤ grade_group then "Very High"
    else if 2 ≤ high_risk_factors then "Very High"
    else if high_risk_factors = 1 then "High"
    else if 2 ≤ intermediate_factors ∨ grade_group = 3 ∨ 50 ≤ pct_positive then
      "Unfavorable Intermediate"
    else if intermediate_factors = 1 ∧ grade_group ≤ 2 ∧ pct_positive < 50 then
      "Favorable Intermediate"
    else if (t = sT1A ∨ t = sT1B ∨ t = sT1C ∨ t = sT2A) ∧ grade_group = 1 ∧ psa < 10 then
      if t = sT1C ∧ positive_cores < 3 ∧ max_core_involvement ≤ 50 ∧ psa_density < mkRat 3 20 then
        "Very Low"
      else "Low"
    else "Unable to classify"

/-- Modelled from the spec: the normalisation the spec describes for
T-stage tokens — "normalized to uppercase with leading c/p stripped" —
which keeps a trailing sub-stage letter. -/
def specNormalizeT (s : Str) : Str :=
  match pyUpper s with
  | [] => []
  | c :: rest => if c = 'C' ∨ c = 'P' then rest else c :: rest

/-- Modelled from the spec: the NCCN cascade exactly as §4.2 of the spec
orders it, differing from `calculate_nccn_risk` only in using the
spec's T-stage normalisation `specNormalizeT`. -/
def nccn_risk_spec (psa : ℚ) (grade_group : ℤ) (t_stage : Str)
    (positive_cores total_cores : ℕ) (max_core_involvement : ℚ)
    (psa_density : ℚ) (primary_gleason : Option ℤ)
    (n_stage m_stage : Str) : String :=
  if m_stage ≠ sM0 then "Metastatic"
  else if n_stage = sN1 then "Regional"
  else
    let t := specNormalizeT t_stage
    let pct_positive : ℚ := if 0 < total_cores then mkRat (100 * positive_cores) total_cores else 0
    let intermediate_factors : ℤ :=
      (if t = sT2B ∨ t = sT2C then 1 else 0) +
      (if grade_group = 2 ∨ grade_group = 3 then 1 else 0) +
      (if 10 ≤ psa ∧ psa ≤ 20 then 1 else 0)
    let high_risk_factors : ℤ :=
      (if t = sT3A then 1 else 0) +
      (if 4 ≤ grade_group then 1 else 0) +
      (if 20 < psa then 1 else 0)
    if t = sT3B ∨ t = sT4 then "Very High"
    else if primary_gleason = some 5 then "Very High"
    else if 4 < positive_cores ∧ 4 ≤ grade_group then "Very High"
    else if 2 ≤ high_risk_factors then "Very High"
    else if high_risk_factors = 1 then "High"
    else if 2 ≤ intermediate_factors ∨ grade_group = 3 ∨ 50 ≤ pct_positive then
      "Unfavorable Intermediate"
    else if intermediate_factors = 1 ∧ grade_group ≤ 2 ∧ pct_positive < 50 then
      "Favorable Intermediate"
    else if (t = sT1A ∨ t = sT1B ∨ t = sT1C ∨ t = sT2A) ∧ grade_group = 1 ∧ psa < 10 then
      if t = sT1C ∧ positive_cores < 3 ∧ max_core_involvement ≤ 50 ∧ psa_density < mkRat 3 20 then
        "Very Low"
      else "Low"
    else "Unable to classify"

/-! ## TNM staging and AJCC prognostic stage (helper.py lines 154-456) -/

/-- The T-stage normalisation of `calculate_tnm_stage` and
`calculate_ajcc_prognostic_stage` (lines 199-205, 323-328): uppercase,
strip, then drop one leading character when the token starts with
`"CT"` or with `"C"`. -/
def tnmNormalizeT (s : Str) : Str :=
  let t := pyStrip (pyUpper s)
  if ("CT".data).isPrefixOf t then t.drop 1
  else if ("C".data).isPrefixOf t then t.drop 1
  else t

/-- `valid_t` (line 242). -/
def valid_t : List Str := [sT1, sT1A, sT1B, sT1C, sT2, sT2A, sT2B, sT2C, sT3, sT3A, sT3B, sT4, sTX]

/-- `valid_n` (line 250). -/
def valid_n : List Str := [sN0, sN1, sNX]

/-- `valid_m` (line 258). -/
def valid_m : List Str := [sM0, sM1, sM1A, sM1B, sM1C]

/-- The three `ok: False` dictionaries `calculate_ajcc_prognostic_stage`
can produce (invalid PSA, invalid Grade Group, impossible N/M residue). -/
inductive AjccError
  | psaNegative
  | gradeGroupOutOfRange
  | invalidCombination
  deriving DecidableEq, Repr

/-- Result of `calculate_ajcc_prognostic_stage`: either an `ok: False`
dictionary (no `stage` key) or a dictionary carrying a `stage` label
(possibly `"Unable to classify"`). -/
inductive AjccResult
  | invalid : AjccError → AjccResult
  | staged : String → AjccResult
  deriving DecidableEq, Repr

/-- Membership tests (helper closures `is_t1_t2a` … `is_m1`,
lines 348-361). -/
def is_t1_t2a (t : Str) : Prop := t = sT1 ∨ t = sT1A ∨ t = sT1B ∨ t = sT1C ∨ t = sT2 ∨ t = sT2A

instance (t : Str) : Decidable (is_t1_t2a t) := by unfold is_t1_t2a; infer_instance

def is_t2b_c (t : Str) : Prop := t = sT2B ∨ t = sT2C

instance (t : Str) : Decidable (is_t2b_c t) := by unfold is_t2b_c; infer_instance

def is_t1_t2 (t : Str) : Prop := is_t1_t2a t ∨ is_t2b_c t

instance (t : Str) : Decidable (is_t1_t2 t) := by unfold is_t1_t2; infer_instance

def is_t3_t4 (t : Str) : Prop := t = sT3 ∨ t = sT3A ∨ t = sT3B ∨ t = sT4

instance (t : Str) : Decidable (is_t3_t4 t) := by unfold is_t3_t4; infer_instance

def is_m1 (m : Str) : Prop := m = sM1 ∨ m = sM1A ∨ m = sM1B ∨ m = sM1C

instance (m : Str) : Decidable (is_m1 m) := by unfold is_m1; infer_instance

/-- `calculate_ajcc_prognostic_stage(clinical_t, n_stage, m_stage, psa,
grade_group)` (lines 291-456). -/
def calculate_ajcc_prognostic_stage (clinical_t n_stage m_stage : Str)
    (psa : ℚ) (grade_group : ℤ) : AjccResult :=
  let t := tnmNormalizeT clinical_t
  let n := pyStrip (pyUpper n_stage)
  let m := pyStrip (pyUpper m_stage)
  if psa < 0 then .invalid .psaNegative
  else if ¬ (grade_group = 1 ∨ grade_group = 2 ∨ grade_group = 3 ∨
             grade_group = 4 ∨ grade_group = 5) then .invalid .gradeGroupOutOfRange
  else if n = sNX then .staged "Unable to classify"
  else if is_m1 m then .staged "IVB"
  else if n = sN1 ∧ ¬ is_m1 m then .staged "IVA"
  else if ¬ (n = sN0) ∨ is_m1 m then .invalid .invalidCombination
  else if grade_group = 5 then .staged "IIIC"
  else if is_t3_t4 t ∧ grade_group ≤ 4 then .staged "IIIB"
  else if is_t1_t2 t ∧ 20 ≤ psa ∧ grade_group ≤ 4 then .staged "IIIA"
  else if is_t1_t2 t ∧ psa < 20 ∧ (grade_group = 3 ∨ grade_group = 4) then .staged "IIC"
  else if is_t1_t2 t ∧ psa < 20 ∧ grade_group = 2 then .staged "IIB"
  else if grade_group = 1 ∧ is_t1_t2a t ∧ 10 ≤ psa ∧ psa < 20 then .staged "IIA"
  else if grade_group = 1 ∧ is_t2b_c t ∧ psa < 20 then .staged "IIA"
  else if is_t1_t2a t ∧ psa < 10 ∧ grade_group = 1 then .staged "I"
  else .staged "Unable to classify"

/-- The `ok: False` outcomes of `calculate_tnm_stage` (invalid T, N or
M token, lines 241-263). -/
inductive TnmError
  | invalidT
  | invalidN
  | invalidM
  deriving DecidableEq, Repr

/-- Result of `calculate_tnm_stage`: `ok t n m prognostic` models the
`ok: True` dictionary with its normalised categories and the value of
`result.get('prognostic_stage')` (`none` when PSA or Grade Group was
not supplied, or when the prognostic sub-call returned no `stage`). -/
inductive TnmResult
  | error : TnmError → TnmResult
  | ok : Str → Str → Str → Option String → TnmResult
  deriving DecidableEq, Repr

/-- The `ok` boolean of the returned dictionary. -/
def tnmOk : TnmResult → Bool
  | .error _ => false
  | .ok _ _ _ _ => true

/-- `calculate_tnm_stage(clinical_t, n_stage, m_stage, psa, grade_group)`
(lines 154-288). -/
def calculate_tnm_stage (clinical_t n_stage m_stage : Str)
    (psa : Option ℚ) (grade_group : Option ℤ) : TnmResult :=
  let t := tnmNormalizeT clinical_t
  let n := pyStrip (pyUpper n_stage)
  let m := pyStrip (pyUpper m_stage)
  if t ∉ valid_t then .error .invalidT
  else if n ∉ valid_n then .error .invalidN
  else if m ∉ valid_m then .error .invalidM
  else
    match psa, grade_group with
    | some p, some g =>
        .ok t n m
          (match calculate_ajcc_prognostic_stage t n m p g with
            | .staged s => some s
            | .invalid _ => none)
    | _, _ => .ok t n m none

/-- The nine defined AJCC prognostic stage groups. -/
def ajccStageGroups : List String :=
  ["I", "IIA", "IIB", "IIC", "IIIA", "IIIB", "IIIC", "IVA", "IVB"]

/-! ## CAPRA and CAPRA-S point scores (helper.py lines 463-634) -/

/-- CAPRA PSA points (lines 480-494). -/
def capra_psa_points (psa : ℚ) : ℤ :=
  if psa ≤ 6 then 0
  else if psa ≤ 10 then 1
  else if psa ≤ 20 then 2
  else if psa ≤ 30 then 3
  else 4

/-- CAPRA Gleason-pattern points (lines 496-504). -/
def capra_gleason_points (primary_gleason secondary_gleason : ℤ) : ℤ :=
  if 4 ≤ primary_gleason then 3
  else if 4 ≤ secondary_gleason then 1
  else 0

/-- CAPRA T-stage points (lines 506-512); the T-stage is first passed
through the shared `upper().replace("C","").replace("CT","T")`
normalisation. -/
def capra_t_points (t_stage : Str) : ℤ :=
  if nccnNormalizeT t_stage = sT3A then 1 else 0

/-- CAPRA percent-positive-cores points (lines 514-519). -/
def capra_core_points (pct_positive_cores : ℚ) : ℤ :=
  if 34 ≤ pct_positive_cores then 1 else 0

/-- CAPRA age points (lines 521-526). -/
def capra_age_points (age : ℤ) : ℤ :=
  if 50 ≤ age then 1 else 0

/-- Per-factor point breakdown returned by `calculate_capra`. -/
structure CapraBreakdown where
  psa : ℤ
  gleason : ℤ
  t_stage : ℤ
  cores : ℤ
  age : ℤ
  deriving DecidableEq, Repr

/-- Result of `calculate_capra`. -/
structure CapraResult where
  score : ℤ
  risk_group : String
  breakdown : CapraBreakdown
  deriving DecidableEq, Repr

/-- Three-tier risk banding shared by CAPRA and CAPRA-S
(lines 528-534 and 622-628). -/
def capra_risk_band (score : ℤ) : String :=
  if score ≤ 2 then "Low"
  else if score ≤ 5 then "Intermediate"
  else "High"

/-- `calculate_capra(psa, primary_gleason, secondary_gleason, t_stage,
pct_positive_cores, age)` (lines 463-540); the code accumulates `score`
in lock-step with the breakdown entries, so the score is exactly the
sum of the breakdown. -/
def calculate_capra (psa : ℚ) (primary_gleason secondary_gleason : ℤ)
    (t_stage : Str) (pct_positive_cores : ℚ) (age : ℤ) : CapraResult :=
  let breakdown : CapraBreakdown :=
    { psa := capra_psa_points psa
      gleason := capra_gleason_points primary_gleason secondary_gleason
      t_stage := capra_t_points t_stage
      cores := capra_core_points pct_positive_cores
      age := capra_age_points age }
  let score := breakdown.psa + breakdown.gleason + breakdown.t_stage +
    breakdown.cores + breakdown.age
  { score := score
    risk_group := capra_risk_band score
    breakdown := breakdown }

/-- CAPRA-S PSA points (lines 568-579). -/
def capra_s_psa_points (preop_psa : ℚ) : ℤ :=
  if preop_psa ≤ 6 then 0
  else if preop_psa ≤ 10 then 1
  else if preop_psa ≤ 20 then 2
  else 3

/-- CAPRA-S pathologic-Gleason lookup (`gleason_map`, lines 582-589),
applied after removing spaces; unmapped strings default to 0. -/
def capra_s_gleason_points (path_gleason : Str) : ℤ :=
  let gs := pyReplace path_gleason (" ".data) ("".data)
  if gs = ("3+3".data) ∨ gs = ("6".data) then 0
  else if gs = ("3+4".data) ∨ gs = ("7a".data) then 1
  else if gs = ("4+3".data) ∨ gs = ("7b".data) then 2
  else if gs = ("4+4".data) ∨ gs = ("8".data) ∨ gs = ("4+5".data) ∨
          gs = ("5+4".data) ∨ gs = ("5+3".data) ∨ gs = ("3+5".data) ∨
          gs = ("5+5".data) ∨ gs = ("9".data) ∨ gs = ("10".data) then 3
  else 0

/-- Per-factor point breakdown returned by `calculate_capra_s`. -/
structure CapraSBreakdown where
  psa : ℤ
  gleason : ℤ
  margin : ℤ
  ece : ℤ
  svi : ℤ
  lni : ℤ
  deriving DecidableEq, Repr

/-- Result of `calculate_capra_s`. -/
structure CapraSResult where
  score : ℤ
  risk_group : String
  breakdown : CapraSBreakdown
  deriving DecidableEq, Repr

/-- `calculate_capra_s(preop_psa, path_gleason, margin_positive, ece,
svi, lni)` (lines 543-634). -/
def calculate_capra_s (preop_psa : ℚ) (path_gleason : Str)
    (margin_positive ece svi lni : Bool) : CapraSResult :=
  let breakdown : CapraSBreakdown :=
    { psa := capra_s_psa_points preop_psa
      gleason := capra_s_gleason_points path_gleason
      margin := if margin_positive then 2 else 0
      ece := if ece then 1 else 0
      svi := if svi then 2 else 0
      lni := if lni then 1 else 0 }
  let score := breakdown.psa + breakdown.gleason + breakdown.margin +
    breakdown.ece + breakdown.svi + breakdown.lni
  { score := score
    risk_group := capra_risk_band score
    breakdown := breakdown }

/-! ## PSA doubling time (`calculate_psadt`, helper.py lines 880-1005) -/

/-- Stable insertion of a `(time, psa)` pair into a list already sorted
by time: the new element goes after all existing elements with a time
`≤` its own. -/
def insertByTime (x : ℚ × ℚ) : List (ℚ × ℚ) → List (ℚ × ℚ)
  | [] => [x]
  | b :: l => if b.1 ≤ x.1 then b :: insertByTime x l else x :: b :: l

/-- Model of `sorted(psa_values, key=lambda x: x[0])`: a stable sort by
the time component. -/
def sortByTime (l : List (ℚ × ℚ)) : List (ℚ × ℚ) :=
  l.foldl (fun acc x => insertByTime x acc) []

/-- Kernel-evaluable subtraction on `ℚ`: Batteries marks `Rat.sub`
`@[irreducible]`, which blocks `decide`; `ratSub_eq` below proves this
agrees with `-`. -/
def ratSub (a b : ℚ) : ℚ := mkRat (a.num * b.den - b.num * a.den) (a.den * b.den)

/-- `times[-1] - times[0]` after sorting (line 921). -/
def obsSpan (psa_values : List (ℚ × ℚ)) : ℚ :=
  let times := (sortByTime psa_values).map Prod.fst
  ratSub (times.getLastD 0) (times.headD 0)

/-- `psas[i+1] > psas[i]` for all adjacent pairs (the rising check of
lines 944-950 succeeds exactly when this holds). -/
def allRising : List ℚ → Bool
  | [] => true
  | [_] => true
  | a :: b :: rest => a < b && allRising (b :: rest)

/-- The distinct `ok: False` reasons `calculate_psadt` can return
(lines 908-968): fewer than `min_values` values; observation span below
`min_observation_days`; some PSA `≤ 0`; some PSA below `min_psa`;
a non-rising adjacent pair under `require_rising`; all time values
identical. -/
inductive PsadtReason
  | tooFewValues
  | shortObservation
  | nonPositiveValue
  | belowMinPsa
  | notRising
  | zeroDenominator
  deriving DecidableEq, Repr

/-- Result of `calculate_psadt`: an `ok: False` dictionary with a
reason, the `ok: True` stable/declining result (slope `≤ 0`, infinite
PSADT), or the `ok: True` success carrying slope, `psadt_days` and
`psadt_months` (unrounded). -/
inductive PsadtResult
  | error : PsadtReason → PsadtResult
  | stable : ℝ → PsadtResult
  | success : ℝ → ℝ → ℝ → PsadtResult

/-- The `ok` boolean of the returned dictionary. -/
def psadtOk : PsadtResult → Bool
  | .error _ => false
  | .stable _ => true
  | .success _ _ _ => true

/-- `calculate_psadt(psa_values, require_rising)` with the default
thresholds `min_psa = 0.20`, `min_values = 3`,
`min_observation_days = 90` (lines 880-1005).  The rounding applied to
the returned floats and the derived `interpretation`/`r_squared`
presentation fields are omitted; `psadt_days`/`psadt_months` are the
exact unrounded values. -/
noncomputable def calculate_psadt (psa_values : List (ℚ × ℚ))
    (require_rising : Bool) : PsadtResult :=
  if psa_values.length < 3 then .error .tooFewValues
  else
    let sorted := sortByTime psa_values
    let times := sorted.map Prod.fst
    let psas := sorted.map Prod.snd
    if obsSpan psa_values < 90 then .error .shortObservation
    else if psas.any (fun p => p ≤ 0) then .error .nonPositiveValue
    else if psas.any (fun p => p < mkRat 1 5) then .error .belowMinPsa
    else if require_rising ∧ ¬ allRising psas then .error .notRising
    else
      let n : ℤ := times.length
      let sum_t : ℚ := times.sum
      let sum_t2 : ℚ := (times.map (fun t => t ^ 2)).sum
      let denominator : ℚ := n * sum_t2 - sum_t ^ 2
      if denominator = 0 then .error .zeroDenominator
      else
        let sum_ln : ℝ := (psas.map (fun p => Real.log (p : ℝ))).sum
        let sum_t_ln : ℝ := (sorted.map (fun tp => (tp.1 : ℝ) * Real.log (tp.2 : ℝ))).sum
        let slope : ℝ := ((n : ℝ) * sum_t_ln - (sum_t : ℝ) * sum_ln) / (denominator : ℝ)
        if slope ≤ 0 then .stable slope
        else
          let psadt_days : ℝ := ((mkRat 693 1000 : ℚ) : ℝ) / slope
          let psadt_months : ℝ := psadt_days / ((mkRat 761 25 : ℚ) : ℝ)
          .success slope psadt_days psadt_months

/-! ## EAU biochemical-recurrence risk (`eau_bcr_risk`, helper.py lines 1054-1133) -/

/-- The four EMBARK notes built at lines 1115-1123, one tag per branch:
`requiresPsaValue` is the "EMBARK eligibility requires PSA value"
message emitted when `current_psa` is absent. -/
inductive EmbarkNote
  | requiresPsaValue
  | eligibleNote
  | psaBelowThreshold
  | psadtTooLong
  deriving DecidableEq, Repr

/-- Result of `eau_bcr_risk`. -/
structure EauBcrResult where
  risk_group : String
  high_risk_factors : List String
  low_risk_criteria : List String
  embark_eligible : Bool
  embark_psadt_met : Bool
  embark_psa_met : Option Bool
  embark_note : EmbarkNote
  deriving DecidableEq, Repr

/-- `eau_bcr_risk(psadt_months, grade_group, time_to_bcr_months,
current_psa)` (lines 1054-1133). -/
def eau_bcr_risk (psadt_months : ℚ) (grade_group : ℤ)
    (time_to_bcr_months : Option ℚ) (current_psa : Option ℚ) : EauBcrResult :=
  let high_risk_factors : List String :=
    (if psadt_months ≤ 12 then ["PSADT <=12 months"] else []) ++
    (if 4 ≤ grade_group then ["Grade Group 4-5"] else [])
  let low_risk_criteria : List String :=
    (if psadt_months ≤ 12 then [] else ["PSADT >12 months"]) ++
    (if 4 ≤ grade_group then [] else ["Grade Group 1-3"]) ++
    (match time_to_bcr_months with
      | some t => if 18 < t then ["Time to BCR >18 months"] else []
      | none => [])
  let risk_group : String :=
    if 0 < high_risk_factors.length then "High Risk BCR"
    else if 2 ≤ low_risk_criteria.length then "Low Risk BCR"
    else "Indeterminate"
  let embark_psadt_met : Bool := psadt_months ≤ 9
  let embark_psa_met : Bool :=
    match current_psa with
    | some p => 1 ≤ p
    | none => false
  let embark_eligible : Bool := embark_psadt_met && embark_psa_met
  let embark_note : EmbarkNote :=
    match current_psa with
    | none => .requiresPsaValue
    | some _ =>
        if embark_eligible then .eligibleNote
        else if embark_psadt_met then .psaBelowThreshold
        else .psadtTooLong
  { risk_group := risk_group
    high_risk_factors := high_risk_factors
    low_risk_criteria := low_risk_criteria
    embark_eligible := embark_eligible
    embark_psadt_met := embark_psadt_met
    embark_psa_met := match current_psa with | some _ => some embark_psa_met | none => none
    embark_note := embark_note }

/-! ## Polish C.87 abiraterone eligibility
(`check_abiraterone_eligibility_poland`, helper.py lines 1312-1740) -/

/-- Result dictionary of `check_abiraterone_eligibility_poland`.
Message strings are abbreviated English tags for the Polish criteria
texts (one tag per message site, numbers omitted). -/
structure AbiResult where
  eligible : Bool
  indication : Option String
  attachment : Option String
  criteria_met : List String
  criteria_not_met : List String
  warnings : List String
  exclusions : List String
  exclusion_reason : Option String
  alternative : Option String
  high_risk_factors_count : Option ℤ
  max_duration : Option String
  deriving DecidableEq, Repr

/-- The initial result dictionary (lines 1363-1371). -/
def abiBase : AbiResult :=
  { eligible := false
    indication := none
    attachment := none
    criteria_met := []
    criteria_not_met := []
    warnings := []
    exclusions := []
    exclusion_reason := none
    alternative := none
    high_risk_factors_count := none
    max_duration := none }

/-- The adjuvant-branch T-stage normalisation
`t_stage.upper().replace("C", "").replace("P", "")` (line 1684). -/
def adjuvantNormalizeT (s : Str) : Str :=
  pyReplace (pyReplace (pyUpper s) ("C".data) ("".data)) ("P".data) ("".data)

/-- `check_abiraterone_eligibility_poland(...)` (lines 1312-1740),
parameters in source order. -/
def check_abiraterone_eligibility_poland (disease_state : Str)
    (has_metastases castration_resistant : Bool)
    (gleason_score bone_metastases_count : Option ℤ)
    (has_visceral_metastases : Bool) (psadt_months : Option ℚ)
    (after_radical_rt : Bool) (n_positive : Option Bool)
    (t_stage : Option Str) (psa_at_diagnosis : Option ℚ)
    (symptomatic post_docetaxel adt_failure : Bool)
    (prior_novel_hormonal_agent prior_abiraterone : Bool)
    (months_since_adt_start : Option ℚ) : AbiResult :=
  if prior_abiraterone then
    { abiBase with
        exclusions := ["prior abiraterone (single-indication rule)"]
        exclusion_reason := some "Prior abiraterone treatment" }
  else if prior_novel_hormonal_agent then
    { abiBase with
        exclusions := ["prior novel hormonal agent"]
        exclusion_reason := some "Prior novel hormonal agent (apalutamide, enzalutamide, darolutamide)" }
  else
    let ds := pyStrip (pyLower disease_state)
    if ds = ("mhspc".data) then
      if ¬ has_metastases then
        { abiBase with criteria_not_met := ["no metastases (required for mHSPC)"] }
      else if castration_resistant then
        { abiBase with criteria_not_met := ["castration resistant (hormone-sensitive required)"] }
      else
        match gleason_score, bone_metastases_count with
        | some g, some b =>
          let f1 : Bool := 8 ≤ g
          let f2 : Bool := 3 ≤ b
          let f3 : Bool := has_visceral_metastases
          let hrf : ℤ := (if f1 then 1 else 0) + (if f2 then 1 else 0) + (if f3 then 1 else 0)
          let details : List String :=
            (if f1 then ["Gleason >=8"] else []) ++
            (if f2 then [">=3 bone metastases"] else []) ++
            (if f3 then ["visceral metastases (excluding lymph nodes)"] else [])
          let factor_failures : List String :=
            (if f1 then [] else ["Gleason <8"]) ++
            (if f2 then [] else ["<3 bone metastases"])
          if 2 ≤ hrf then
            let base2 : AbiResult :=
              { abiBase with
                  indication := some "High-risk newly diagnosed mHSPC"
                  attachment := some "C.87.a"
                  criteria_met := details
                  criteria_not_met := factor_failures
                  high_risk_factors_count := some hrf }
            match months_since_adt_start with
            | none =>
                { base2 with
                    eligible := false
                    criteria_not_met :=
                      factor_failures ++ ["no data on time since ADT start (required: <=3 months)"]
                    warnings := ["provide months_since_adt_start: treatment must begin within 3 months of ADT"] }
            | some m =>
                if 3 < m then
                  { base2 with
                      eligible := false
                      criteria_not_met := factor_failures ++ ["time limit exceeded: >3 months since ADT"] }
                else
                  { base2 with
                      eligible := true
                      criteria_met := details ++ ["started within 3 months of ADT"] }
          else
            { abiBase with
                criteria_not_met :=
                  factor_failures ++ [">=2 of 3 high-risk factors required"]
                alternative := some "consider qualification as mCSPC (C.87.b)" }
        | _, _ =>
          { abiBase with
              criteria_not_met := ["missing data required for high-risk assessment"]
              warnings := ["cannot assess C.87.a qualification without complete risk-factor data"] }
    else if ds = ("mcrpc".data) ∧ ¬ post_docetaxel then
      if ¬ has_metastases then
        { abiBase with criteria_not_met := ["no metastases (required for mCRPC)"] }
      else if ¬ castration_resistant then
        { abiBase with criteria_not_met := ["castration sensitive (CRPC required)"] }
      else if ¬ adt_failure then
        { abiBase with criteria_not_met := ["ADT failure required"] }
      else if symptomatic then
        { abiBase with
            criteria_not_met := ["symptomatic (asymptomatic or oligosymptomatic required)"]
            warnings := ["for symptomatic patients consider chemotherapy or C.87.a.3 after docetaxel"] }
      else
        { abiBase with
            eligible := true
            indication := some "Asymptomatic/oligosymptomatic mCRPC, pre-chemotherapy"
            attachment := some "C.87.a"
            criteria_met :=
              ["castration resistant", "metastases present", "ADT failure",
               "asymptomatic or oligosymptomatic", "chemotherapy not yet clinically indicated"] }
    else if ds = ("mcrpc".data) ∧ post_docetaxel then
      if ¬ has_metastases then
        { abiBase with criteria_not_met := ["no metastases (required for mCRPC)"] }
      else if ¬ castration_resistant then
        { abiBase with criteria_not_met := ["castration sensitive (CRPC required)"] }
      else
        { abiBase with
            eligible := true
            indication := some "mCRPC after docetaxel-based chemotherapy failure"
            attachment := some "C.87.a"
            criteria_met :=
              ["castration resistant", "metastases present", "after docetaxel failure"]
            warnings := ["post_docetaxel=True assumes docetaxel failure (progression or intolerance)"] }
    else if ds = ("mcspc".data) then
      if ¬ has_metastases then
        { abiBase with criteria_not_met := ["no metastases (required for mCSPC)"] }
      else if castration_resistant then
        { abiBase with criteria_not_met := ["castration resistant (sensitive required)"] }
      else
        let f1 : Bool := match gleason_score with | some g => 8 ≤ g | none => false
        let f2 : Bool := match bone_metastases_count with | some b => 3 ≤ b | none => false
        let f3 : Bool := has_visceral_metastases
        let hrf : ℤ := (if f1 then 1 else 0) + (if f2 then 1 else 0) + (if f3 then 1 else 0)
        let details : List String :=
          (if f1 then ["Gleason >=8"] else []) ++
          (if f2 then [">=3 bone metastases"] else []) ++
          (if f3 then ["visceral metastases"] else [])
        if 2 ≤ hrf then
          { abiBase with
              criteria_not_met := ["meets C.87.a high-risk criteria"] ++ details
              alternative := some "patient qualifies for C.87.a (high-risk mHSPC), not C.87.b" }
        else
          { abiBase with
              eligible := true
              indication := some "mCSPC not meeting C.87.a high-risk criteria, with ADT alone or with 18-week docetaxel"
              attachment := some "C.87.b"
              criteria_met :=
                ["castration sensitive", "metastases present",
                 "does not meet C.87.a high-risk criteria"]
              warnings :=
                if gleason_score = none ∨ bone_metastases_count = none then
                  ["incomplete high-risk data: confirm the patient does not meet C.87.a criteria"]
                else [] }
    else if ds = ("nmcrpc".data) then
      if has_metastases then
        { abiBase with criteria_not_met := ["metastases present (nmCRPC requires none)"] }
      else if ¬ castration_resistant then
        { abiBase with criteria_not_met := ["castration sensitive (CRPC required)"] }
      else
        match psadt_months with
        | none => { abiBase with criteria_not_met := ["no PSA DT data (required: PSA DT <=10 months)"] }
        | some dt =>
          if 10 < dt then
            { abiBase with
                criteria_not_met := ["PSA DT >10 months (required <=10)"]
                warnings := ["high metastasis risk is defined as PSA DT <=10 months"] }
          else
            { abiBase with
                eligible := true
                indication := some "nmCRPC with high risk of metastasis (PSADT <=10 months)"
                attachment := some "C.87.b"
                criteria_met :=
                  ["castration resistant", "no metastases (M0)", "PSA DT <=10 months"] }
    else if ds = ("adjuvant_post_rt".data) then
      if ¬ after_radical_rt then
        { abiBase with criteria_not_met := ["no radical radiotherapy in history"] }
      else
        let warn0 : List String :=
          (if has_metastases then ["metastases indicated but adjuvant treatment concerns local disease"] else []) ++
          (if castration_resistant then ["castration resistance indicated but adjuvant treatment concerns hormone-sensitive disease"] else [])
        match n_positive with
        | some true =>
            { abiBase with
                eligible := true
                indication := some "Adjuvant after radical RT - high-risk (N+)"
                attachment := some "C.87.b"
                criteria_met := ["after radical radiotherapy", "lymph-node metastases (N+)"]
                max_duration := some "24 months (2 years)"
                warnings := warn0 ++ ["maximum treatment duration: 2 years combined with ADT"] }
        | some false =>
            let r1 : Bool :=
              match t_stage with
              | some t =>
                  let tu := adjuvantNormalizeT t
                  tu = sT3 ∨ tu = sT3A ∨ tu = sT3B ∨ tu = sT4
              | none => false
            let r2 : Bool := match gleason_score with | some g => 8 ≤ g | none => false
            let r3 : Bool := match psa_at_diagnosis with | some p => 40 ≤ p | none => false
            let rf : ℤ := (if r1 then 1 else 0) + (if r2 then 1 else 0) + (if r3 then 1 else 0)
            let risk_details : List String :=
              (if r1 then ["feature T3-4"] else []) ++
              (if r2 then ["Gleason 8-10"] else []) ++
              (if r3 then ["PSA >=40 ng/mL"] else [])
            if 2 ≤ rf then
              { abiBase with
                  eligible := true
                  indication := some "Adjuvant after radical RT - high-risk (N-, >=2 risk factors)"
                  attachment := some "C.87.b"
                  criteria_met :=
                    ["after radical radiotherapy", "no lymph-node metastases (N-)",
                     ">=2 of 3 risk factors met"] ++ risk_details
                  max_duration := some "24 months (2 years)"
                  warnings := warn0 ++ ["maximum treatment duration: 2 years combined with ADT"] }
            else
              { abiBase with
                  criteria_not_met := ["N- requires >=2 of 3 factors: T3-4, Gleason 8-10, PSA >=40"]
                  criteria_met := risk_details
                  warnings := warn0 }
        | none =>
            { abiBase with
                criteria_not_met := ["no lymph-node (N) status data - required for assessment"]
                warnings := warn0 }
    else
      { abiBase with
          criteria_not_met := ["unrecognized disease state (allowed: mhspc, mcspc, nmcrpc, mcrpc, adjuvant_post_rt)"] }

/-! ## Polish B.56 programme drug eligibility (helper.py lines 1803-2711) -/

/-- `HRR_GENES` (line 1803). -/
def HRR_GENES : List Str :=
  ["BRCA1".data, "BRCA2".data, "ATM".data, "CDK12".data, "CHEK2".data,
   "PALB2".data, "RAD51C".data]

/-- Result of `check_b56_general_criteria` (lines 1816-1846). -/
structure B56General where
  eligible : Bool
  criteria_not_met : List String
  ecog : ℤ
  deriving DecidableEq, Repr

/-- `check_b56_general_criteria(histology_confirmed, age, ecog,
has_other_malignancy, has_neuroendocrine)` (lines 1816-1846). -/
def check_b56_general_criteria (histology_confirmed : Bool) (age ecog : ℤ)
    (has_other_malignancy has_neuroendocrine : Bool) : B56General :=
  let issues : List String :=
    (if ¬ histology_confirmed then ["histologic confirmation of prostate adenocarcinoma required"] else []) ++
    (if age < 18 then ["age <18"] else []) ++
    (if has_other_malignancy then ["uncontrolled other malignancy"] else []) ++
    (if has_neuroendocrine then ["neuroendocrine/small-cell/ductal carcinoma (excludes from programme)"] else [])
  { eligible := issues.length = 0
    criteria_not_met := issues
    ecog := ecog }

/-- Common result dictionary of the per-drug B.56 checks (the
`dosing`/`drug_pl`/`treatment_protocol` presentation entries are
omitted). -/
structure B56Result where
  eligible : Bool
  drug : String
  indication : Option String
  criteria_met : List String
  criteria_not_met : List String
  warnings : List String
  deriving DecidableEq, Repr

/-- Initial per-drug result dictionary. -/
def b56Base (drug : String) : B56Result :=
  { eligible := false
    drug := drug
    indication := none
    criteria_met := []
    criteria_not_met := []
    warnings := [] }

/-- `x is not None and x > c` for an optional rational. -/
def optSomeGt (x : Option ℚ) (c : ℚ) : Bool :=
  match x with
  | some v => decide (c < v)
  | none => false

/-- `x is not None and x <= c` for an optional rational. -/
def optSomeLe (x : Option ℚ) (c : ℚ) : Bool :=
  match x with
  | some v => decide (v ≤ c)
  | none => false

/-- `check_apalutamide_eligibility(...)` (lines 1849-2011), parameters
in source order. -/
def check_apalutamide_eligibility (disease_state : Str) (ecog : ℤ)
    (histology_confirmed : Bool) (age : ℤ)
    (has_other_malignancy has_neuroendocrine has_metastases : Bool)
    (testosterone_ng_dl psadt_months psa_value : Option ℚ)
    (prior_abiraterone : Bool) (prior_adt_months_metastatic : Option ℚ)
    (docetaxel_status : Str)
    (bone_modifying_agents bone_modifying_for_osteoporosis : Bool)
    (seizure_history seizure_risk_factors : Bool) : B56Result :=
  let base := b56Base ("Apalutamide")
  if ¬ (check_b56_general_criteria histology_confirmed age ecog
      has_other_malignancy has_neuroendocrine).eligible then
    { base with criteria_not_met := (check_b56_general_criteria histology_confirmed
        age ecog has_other_malignancy has_neuroendocrine).criteria_not_met }
  else
    if prior_abiraterone then
      { base with criteria_not_met := ["prior abiraterone treatment"] }
    else if seizure_history ∨ seizure_risk_factors then
      { base with criteria_not_met := ["seizure history or seizure risk factors"] }
    else if bone_modifying_agents ∧ ¬ bone_modifying_for_osteoporosis then
      { base with criteria_not_met := ["bone-modifying agents in use (except for osteoporosis)"] }
    else if pyStrip (pyLower disease_state) = ("mhspc".data) then
      if 2 < ecog then
        { base with criteria_not_met := ["ECOG >2 (ECOG 0-2 required for mHSPC)"] }
      else if ¬ has_metastases then
        { base with criteria_not_met := ["no confirmed metastases"] }
      else if optSomeGt prior_adt_months_metastatic 6 then
        { base with criteria_not_met := ["ADT for metastatic disease >6 months (max 6)"] }
      else if ¬ (docetaxel_status = ("completed".data) ∨ docetaxel_status = ("not_indicated".data)) then
        { base with
            criteria_not_met := ["required: docetaxel completed OR documented decision to omit"]
            warnings := ["provide docetaxel_status completed or not_indicated with rationale"] }
      else
        { base with
            eligible := true
            indication := some "mHSPC (metastatic hormone-sensitive prostate cancer)"
            criteria_met :=
              ["ECOG 0-2", "confirmed metastases", "hormone sensitive"] ++
              (if prior_adt_months_metastatic ≠ none then ["ADT for mets <=6 months"] else []) ++
              (if docetaxel_status = ("completed".data) then ["docetaxel completed"]
               else if docetaxel_status = ("not_indicated".data) then ["docetaxel omitted (documented decision)"]
               else []) }
    else if pyStrip (pyLower disease_state) = ("nmcrpc".data) then
      if 1 < ecog then
        { base with criteria_not_met := ["ECOG >1 (ECOG 0-1 required for nmCRPC)"] }
      else if has_metastases then
        { base with criteria_not_met := ["metastases present (M0 required for nmCRPC)"] }
      else
        match testosterone_ng_dl with
        | none => { base with criteria_not_met := ["no testosterone measurement"] }
        | some tst =>
          if 50 < tst then
            { base with criteria_not_met := ["testosterone >50 ng/dL (no castration)"] }
          else
            match psadt_months with
            | none => { base with criteria_not_met := ["no PSA DT (required <=10 months)"] }
            | some dt =>
              if 10 < dt then
                { base with criteria_not_met := ["PSA DT >10 months"] }
              else if optSomeLe psa_value 2 then
                { base with criteria_not_met := ["PSA <=2 ng/mL"] }
              else
                { base with
                    eligible := true
                    indication := some "nmCRPC (non-metastatic castration-resistant prostate cancer)"
                    criteria_met :=
                      ["ECOG 0-1", "M0 (no metastases)", "testosterone <=50 ng/dL",
                       "PSA DT <=10 months"] ++
                      (if psa_value ≠ none then ["PSA >2 ng/mL"] else []) }
    else
      { base with criteria_not_met := ["unrecognized disease state (allowed: mHSPC, nmCRPC)"] }

/-- `check_darolutamide_eligibility(...)` (lines 2014-2158), parameters
in source order. -/
def check_darolutamide_eligibility (disease_state : Str) (ecog : ℤ)
    (histology_confirmed : Bool) (age : ℤ)
    (has_other_malignancy has_neuroendocrine has_metastases : Bool)
    (testosterone_ng_dl psadt_months psa_value : Option ℚ)
    (prior_abiraterone : Bool) (prior_adt_months_metastatic : Option ℚ)
    (bone_modifying_agents bone_modifying_for_osteoporosis : Bool)
    (can_receive_docetaxel : Bool) : B56Result :=
  let base := b56Base ("Darolutamide")
  if ¬ (check_b56_general_criteria histology_confirmed age ecog
      has_other_malignancy has_neuroendocrine).eligible then
    { base with criteria_not_met := (check_b56_general_criteria histology_confirmed
        age ecog has_other_malignancy has_neuroendocrine).criteria_not_met }
  else
    if prior_abiraterone then
      { base with criteria_not_met := ["prior abiraterone treatment"] }
    else if bone_modifying_agents ∧ ¬ bone_modifying_for_osteoporosis then
      { base with criteria_not_met := ["bone-modifying agents in use (except for osteoporosis)"] }
    else if pyStrip (pyLower disease_state) = ("mhspc".data) then
      if 2 < ecog then
        { base with criteria_not_met := ["ECOG >2 (ECOG 0-2 required for mHSPC)"] }
      else if ¬ has_metastases then
        { base with criteria_not_met := ["no confirmed metastases"] }
      else if ¬ can_receive_docetaxel then
        { base with
            criteria_not_met := ["darolutamide in mHSPC requires combination with docetaxel"]
            warnings := ["consider apalutamide or enzalutamide as alternative"] }
      else if optSomeGt prior_adt_months_metastatic 6 then
        { base with criteria_not_met := ["ADT for metastatic disease >6 months (max 6)"] }
      else
        { base with
            eligible := true
            indication := some "mHSPC (metastatic hormone-sensitive) + docetaxel"
            criteria_met :=
              ["ECOG 0-2", "confirmed metastases", "hormone sensitive",
               "qualifies for docetaxel"] ++
              (if prior_adt_months_metastatic ≠ none then ["ADT for mets <=6 months"] else []) }
    else if pyStrip (pyLower disease_state) = ("nmcrpc".data) then
      if 1 < ecog then
        { base with criteria_not_met := ["ECOG >1 (ECOG 0-1 required for nmCRPC)"] }
      else if has_metastases then
        { base with criteria_not_met := ["metastases present (M0 required for nmCRPC)"] }
      else
        match testosterone_ng_dl with
        | none => { base with criteria_not_met := ["no testosterone measurement"] }
        | some tst =>
          if 50 < tst then
            { base with criteria_not_met := ["testosterone >50 ng/dL"] }
          else
            match psadt_months with
            | none => { base with criteria_not_met := ["no PSA DT (required <=10 months)"] }
            | some dt =>
              if 10 < dt then
                { base with criteria_not_met := ["PSA DT >10 months"] }
              else if optSomeLe psa_value 2 then
                { base with criteria_not_met := ["PSA <=2 ng/mL"] }
              else
                { base with
                    eligible := true
                    indication := some "nmCRPC (non-metastatic castration-resistant)"
                    criteria_met :=
                      ["ECOG 0-1", "M0 (no metastases)", "testosterone <=50 ng/dL",
                       "PSA DT <=10 months"] }
    else
      { base with criteria_not_met := ["unrecognized disease state (allowed: mHSPC, nmCRPC)"] }

/-- `check_enzalutamide_eligibility(...)` (lines 2161-2360), parameters
in source order. -/
def check_enzalutamide_eligibility (disease_state : Str) (ecog : ℤ)
    (histology_confirmed : Bool) (age : ℤ)
    (has_other_malignancy has_neuroendocrine has_metastases : Bool)
    (testosterone_ng_dl psadt_months psa_value : Option ℚ)
    (has_psa_progression has_radiological_progression : Bool)
    (prior_abiraterone : Bool) (prior_adt_months_metastatic : Option ℚ)
    (docetaxel_status : Str)
    (bone_modifying_agents bone_modifying_for_osteoporosis : Bool)
    (seizure_history seizure_risk_factors : Bool) : B56Result :=
  let base := b56Base ("Enzalutamide")
  if ¬ (check_b56_general_criteria histology_confirmed age ecog
      has_other_malignancy has_neuroendocrine).eligible then
    { base with criteria_not_met := (check_b56_general_criteria histology_confirmed
        age ecog has_other_malignancy has_neuroendocrine).criteria_not_met }
  else
    if prior_abiraterone then
      { base with criteria_not_met := ["prior abiraterone treatment"] }
    else if seizure_history ∨ seizure_risk_factors then
      { base with criteria_not_met := ["seizure history or seizure risk factors"] }
    else if bone_modifying_agents ∧ ¬ bone_modifying_for_osteoporosis then
      { base with criteria_not_met := ["bone-modifying agents (except for osteoporosis)"] }
    else if pyStrip (pyLower disease_state) = ("mhspc".data) then
      if 2 < ecog then
        { base with criteria_not_met := ["ECOG >2"] }
      else if ¬ has_metastases then
        { base with criteria_not_met := ["no metastases"] }
      else if optSomeGt prior_adt_months_metastatic 6 then
        { base with criteria_not_met := ["ADT for mets >6 months (max 6)"] }
      else
        { base with
            eligible := true
            indication := some "mHSPC (metastatic hormone-sensitive)"
            criteria_met := ["ECOG 0-2", "confirmed metastases"] }
    else if pyStrip (pyLower disease_state) = ("nmcrpc".data) then
      if 1 < ecog then
        { base with criteria_not_met := ["ECOG >1"] }
      else if has_metastases then
        { base with criteria_not_met := ["metastases present (M0 required)"] }
      else
        match testosterone_ng_dl with
        | none => { base with criteria_not_met := ["no testosterone measurement (required <=50 ng/dL)"] }
        | some tst =>
          if 50 < tst then
            { base with criteria_not_met := ["testosterone >50 ng/dL"] }
          else
            match psadt_months with
            | none => { base with criteria_not_met := ["no PSA DT (required <=10 months)"] }
            | some dt =>
              if 10 < dt then
                { base with criteria_not_met := ["PSA DT >10 months"] }
              else if optSomeLe psa_value 2 then
                { base with criteria_not_met := ["PSA <=2 ng/mL (required >2)"] }
              else
                { base with
                    eligible := true
                    indication := some "nmCRPC (non-metastatic castration-resistant)"
                    criteria_met :=
                      ["ECOG 0-1", "M0", "testosterone <=50 ng/dL", "PSA DT <=10 months"] ++
                      (if psa_value ≠ none then ["PSA >2 ng/mL"] else []) }
    else if pyStrip (pyLower disease_state) = ("mcrpc_pre".data) ∨ pyStrip (pyLower disease_state) = ("mcrpc pre".data) ∨ pyStrip (pyLower disease_state) = ("mcrpc".data) then
      if 1 < ecog then
        { base with criteria_not_met := ["ECOG >1 (pre-docetaxel requires ECOG 0-1)"] }
      else if ¬ has_metastases then
        { base with criteria_not_met := ["no metastases (required for mCRPC)"] }
      else if optSomeGt testosterone_ng_dl 50 then
        { base with criteria_not_met := ["testosterone >50 ng/dL"] }
      else if ¬ has_psa_progression ∧ ¬ has_radiological_progression then
        { base with criteria_not_met := ["no PSA or radiological progression"] }
      else
        { base with
            eligible := true
            indication := some "mCRPC pre-chemotherapy"
            criteria_met :=
              ["ECOG 0-1", "metastases present", "castration resistant"] ++
              (if has_psa_progression then ["PSA progression"] else []) ++
              (if has_radiological_progression then ["radiological progression"] else []) }
    else if pyStrip (pyLower disease_state) = ("mcrpc_post".data) ∨ pyStrip (pyLower disease_state) = ("mcrpc post".data) then
      if 2 < ecog then
        { base with criteria_not_met := ["ECOG >2"] }
      else if ¬ has_metastases then
        { base with criteria_not_met := ["no metastases"] }
      else if optSomeGt testosterone_ng_dl 50 then
        { base with criteria_not_met := ["testosterone >50 ng/dL"] }
      else if ¬ has_psa_progression ∧ ¬ has_radiological_progression then
        { base with criteria_not_met := ["no progression"] }
      else
        { base with
            eligible := true
            indication := some "mCRPC post-docetaxel"
            criteria_met := ["ECOG 0-2", "metastases present", "after docetaxel"] }
    else
      { base with
          criteria_not_met := ["unrecognized state (allowed: mHSPC, nmCRPC, mCRPC_pre, mCRPC_post)"] }

/-- `check_olaparib_eligibility(...)` (lines 2363-2467), parameters in
source order; note the function takes no prior-abiraterone input at
all. -/
def check_olaparib_eligibility (ecog : ℤ) (histology_confirmed : Bool)
    (age : ℤ) (has_other_malignancy has_neuroendocrine has_metastases : Bool)
    (testosterone_ng_dl : Option ℚ)
    (has_psa_progression has_radiological_progression : Bool)
    (brca_mutation : Option Str) (mutation_type : Str)
    (progressed_on_hormonal_therapy prior_docetaxel prior_cabazitaxel : Bool)
    (crcl_ml_min : Option ℚ) : B56Result :=
  let base := b56Base ("Olaparib")
  if ¬ (check_b56_general_criteria histology_confirmed age ecog
      has_other_malignancy has_neuroendocrine).eligible then
    { base with criteria_not_met := (check_b56_general_criteria histology_confirmed
        age ecog has_other_malignancy has_neuroendocrine).criteria_not_met }
  else if 2 < ecog then
    { base with criteria_not_met := ["ECOG >2"] }
  else if ¬ has_metastases then
    { base with criteria_not_met := ["no metastases (mCRPC required)"] }
  else if optSomeGt testosterone_ng_dl 50 then
    { base with criteria_not_met := ["testosterone >50 ng/dL"] }
  else if ¬ has_psa_progression ∧ ¬ has_radiological_progression then
    { base with criteria_not_met := ["no PSA or radiological progression"] }
  else if ¬ (brca_mutation = some ("BRCA1".data) ∨ brca_mutation = some ("BRCA2".data)) then
    { base with criteria_not_met := ["BRCA1 or BRCA2 mutation required (pathogenic/likely pathogenic)"] }
  else if ¬ progressed_on_hormonal_therapy then
    { base with criteria_not_met := ["progression on novel hormonal therapy required"] }
  else
    match crcl_ml_min with
    | none => { base with criteria_not_met := ["no CrCl value (required >30 mL/min)"] }
    | some crcl =>
      if crcl ≤ 30 then
        { base with criteria_not_met := ["CrCl <=30 mL/min (contraindication)"] }
      else
        { base with
            eligible := true
            indication := some "mCRPC with BRCA mutation after progression on hormonal therapy"
            criteria_met :=
              ["ECOG 0-2", "mCRPC (metastases + castration resistance)",
               "BRCA mutation", "progression on novel hormonal therapy"] ++
              (if prior_docetaxel then ["after docetaxel"] else []) ++
              (if prior_cabazitaxel then ["after cabazitaxel"] else []) ++
              (if 50 < crcl then ["CrCl >50 mL/min"] else [])
            warnings := if crcl ≤ 50 then ["CrCl 31-50 mL/min: dose reduction required"] else [] }

/-- `check_niraparib_abiraterone_eligibility(...)` (lines 2470-2593),
parameters in source order.  A prior-abiraterone exception (lines
2555-2569) tolerates prior abiraterone of at most 4 months without
progression. -/
def check_niraparib_abiraterone_eligibility (ecog : ℤ)
    (histology_confirmed : Bool) (age : ℤ)
    (has_other_malignancy has_neuroendocrine has_metastases : Bool)
    (testosterone_ng_dl : Option ℚ)
    (has_psa_progression has_radiological_progression : Bool)
    (brca_mutation : Option Str) (mutation_type : Str)
    (prior_abiraterone : Bool) (abiraterone_months : Option ℚ)
    (abiraterone_progression prior_parp_inhibitor
     prior_nonsteroidal_antiandrogen chemotherapy_indicated : Bool)
    (crcl_ml_min : Option ℚ) : B56Result :=
  let base := b56Base ("Niraparib + Abiraterone")
  if ¬ (check_b56_general_criteria histology_confirmed age ecog
      has_other_malignancy has_neuroendocrine).eligible then
    { base with criteria_not_met := (check_b56_general_criteria histology_confirmed
        age ecog has_other_malignancy has_neuroendocrine).criteria_not_met }
  else if 2 < ecog then
    { base with criteria_not_met := ["ECOG >2"] }
  else if ¬ has_metastases then
    { base with criteria_not_met := ["no metastases (mCRPC required)"] }
  else if optSomeGt testosterone_ng_dl 50 then
    { base with criteria_not_met := ["testosterone >50 ng/dL"] }
  else if ¬ has_psa_progression ∧ ¬ has_radiological_progression then
    { base with criteria_not_met := ["no progression"] }
  else if ¬ (brca_mutation = some ("BRCA1".data) ∨ brca_mutation = some ("BRCA2".data)) then
    { base with criteria_not_met := ["BRCA1 or BRCA2 mutation required"] }
  else if chemotherapy_indicated then
    { base with criteria_not_met := ["chemotherapy indicated (nira+abi is 1st line without chemo indication)"] }
  else if prior_parp_inhibitor then
    { base with criteria_not_met := ["prior PARP inhibitor treatment"] }
  else if prior_nonsteroidal_antiandrogen then
    { base with criteria_not_met := ["prior nonsteroidal antiandrogen treatment"] }
  else if prior_abiraterone ∧ optSomeGt abiraterone_months 4 then
    { base with criteria_not_met := ["abiraterone used >4 months (max 4 for the exception)"] }
  else if prior_abiraterone ∧ abiraterone_progression then
    { base with criteria_not_met := ["progression on abiraterone (excludes the exception)"] }
  else
    let abi_warn : List String :=
      if prior_abiraterone then
        ["exception: abiraterone started <4 months ago without progression - may continue"]
      else []
    match crcl_ml_min with
    | none => { base with criteria_not_met := ["no CrCl value (required >30 mL/min)"], warnings := abi_warn }
    | some crcl =>
      if crcl ≤ 30 then
        { base with criteria_not_met := ["CrCl <=30 mL/min (contraindication)"], warnings := abi_warn }
      else
        { base with
            eligible := true
            indication := some "mCRPC with BRCA mutation, 1st line (no chemo indication)"
            criteria_met :=
              ["ECOG 0-2", "mCRPC", "BRCA mutation",
               "no 1st-line chemotherapy indication", "no prior PARP inhibitor",
               "no prior nonsteroidal antiandrogen"]
            warnings :=
              abi_warn ++
              (if crcl ≤ 50 then ["CrCl 31-50 mL/min: dose reduction"] else []) ++
              ["use ONLY the niraparib+abiraterone combination tablet"] }

/-- `check_talazoparib_enzalutamide_eligibility(...)` (lines 2596-2711),
parameters in source order. -/
def check_talazoparib_enzalutamide_eligibility (ecog : ℤ)
    (histology_confirmed : Bool) (age : ℤ)
    (has_other_malignancy has_neuroendocrine has_metastases : Bool)
    (testosterone_ng_dl : Option ℚ)
    (has_psa_progression has_radiological_progression : Bool)
    (hrr_mutations : Option (List Str)) (mutation_type : Str)
    (prior_abiraterone prior_parp_inhibitor
     prior_nonsteroidal_antiandrogen chemotherapy_indicated : Bool)
    (crcl_ml_min : Option ℚ) : B56Result :=
  let base := b56Base ("Talazoparib + Enzalutamide")
  if ¬ (check_b56_general_criteria histology_confirmed age ecog
      has_other_malignancy has_neuroendocrine).eligible then
    { base with criteria_not_met := (check_b56_general_criteria histology_confirmed
        age ecog has_other_malignancy has_neuroendocrine).criteria_not_met }
  else if 2 < ecog then
    { base with criteria_not_met := ["ECOG >2"] }
  else if ¬ has_metastases then
    { base with criteria_not_met := ["no metastases (mCRPC required)"] }
  else if optSomeGt testosterone_ng_dl 50 then
    { base with criteria_not_met := ["testosterone >50 ng/dL"] }
  else if ¬ has_psa_progression ∧ ¬ has_radiological_progression then
    { base with criteria_not_met := ["no progression"] }
  else if hrr_mutations = none ∨ hrr_mutations = some [] then
    { base with criteria_not_met := ["HRR mutation required"] }
  else
    if (hrr_mutations.getD []).filter (fun m => pyUpper m ∈ HRR_GENES) = [] then
      { base with criteria_not_met := ["no accepted HRR mutation among those given"] }
    else if chemotherapy_indicated then
      { base with criteria_not_met := ["chemotherapy indicated (tala+enza is 1st line without chemo)"] }
    else if prior_abiraterone then
      { base with criteria_not_met := ["prior abiraterone"] }
    else if prior_parp_inhibitor then
      { base with criteria_not_met := ["prior PARP inhibitor"] }
    else if prior_nonsteroidal_antiandrogen then
      { base with criteria_not_met := ["prior nonsteroidal antiandrogen"] }
    else
      match crcl_ml_min with
      | none => { base with criteria_not_met := ["no CrCl value (required >30 mL/min)"] }
      | some crcl =>
        if crcl ≤ 30 then
          { base with criteria_not_met := ["CrCl <=30 mL/min (contraindication)"] }
        else
          { base with
              eligible := true
              indication := some "mCRPC with HRR mutation, 1st line (no chemo indication)"
              criteria_met :=
                ["ECOG 0-2", "mCRPC", "HRR mutation", "no chemotherapy indication",
                 "no prior abiraterone/PARP/nonsteroidal antiandrogen"]
              warnings := if crcl ≤ 50 then ["CrCl 31-50 mL/min: talazoparib dose reduction"] else [] }

/-! ## Helper lemmas -/

theorem ratSub_eq (a b : ℚ) : ratSub a b = a - b := by
  have ha : ((a.den : ℚ)) ≠ 0 := Nat.cast_ne_zero.mpr a.den_nz
  have hb : ((b.den : ℚ)) ≠ 0 := Nat.cast_ne_zero.mpr b.den_nz
  have hna : (a.num : ℚ) = a * a.den := (div_eq_iff ha).mp (Rat.num_div_den a)
  have hnb : (b.num : ℚ) = b * b.den := (div_eq_iff hb).mp (Rat.num_div_den b)
  rw [ratSub, Rat.mkRat_eq_div]
  push_cast
  rw [div_eq_iff (mul_ne_zero ha hb), hna, hnb]
  ring

theorem tnmNormalizeT_valid : ∀ t ∈ valid_t, tnmNormalizeT t = t := by
  intro t ht
  fin_cases ht <;> decide

theorem norm_valid_n : ∀ n ∈ valid_n, pyStrip (pyUpper n) = n := by
  intro n hn
  fin_cases hn <;> decide

theorem norm_valid_m : ∀ m ∈ valid_m, pyStrip (pyUpper m) = m := by
  intro m hm
  fin_cases hm <;> decide

theorem valid_t_cases : ∀ t ∈ valid_t, is_t1_t2 t ∨ is_t3_t4 t ∨ t = sTX := by
  intro t ht
  fin_cases ht <;> decide

theorem t12_not_t34 {t : Str} (h : is_t1_t2 t) : ¬ is_t3_t4 t := by
  rcases h with (rfl | rfl | rfl | rfl | rfl | rfl) | (rfl | rfl) <;> decide

theorem t2a_not_t2bc {t : Str} (h : is_t1_t2a t) : ¬ is_t2b_c t := by
  rcases h with rfl | rfl | rfl | rfl | rfl | rfl <;> decide

theorem t2bc_not_t2a {t : Str} (h : is_t2b_c t) : ¬ is_t1_t2a t := by
  rcases h with rfl | rfl <;> decide

theorem ajcc_analysis (t n m : Str) (psa : ℚ) (gg : ℤ)
    (ht : t ∈ valid_t) (hn : n ∈ valid_n) (hm : m ∈ valid_m)
    (hpsa : 0 ≤ psa) (hgg1 : 1 ≤ gg) (hgg5 : gg ≤ 5) :
    ∃ s, calculate_ajcc_prognostic_stage t n m psa gg = .staged s ∧
      (s ∈ ajccStageGroups ∨ s = "Unable to classify") ∧
      (n = sNX → s = "Unable to classify") ∧
      (t ≠ sTX → n ≠ sNX → s ∈ ajccStageGroups) := by
  have hT := tnmNormalizeT_valid t ht
  have hN := norm_valid_n n hn
  have hM := norm_valid_m m hm
  simp only [calculate_ajcc_prognostic_stage, hT, hN, hM]
  rw [if_neg (not_lt.mpr hpsa)]
  rw [if_neg (not_not_intro (by omega :
    gg = 1 ∨ gg = 2 ∨ gg = 3 ∨ gg = 4 ∨ gg = 5))]
  by_cases hnx : n = sNX
  · rw [if_pos hnx]
    exact ⟨_, rfl, Or.inr rfl, fun _ => rfl, fun _ hn' => absurd hnx hn'⟩
  · rw [if_neg hnx]
    by_cases hm1 : is_m1 m
    · rw [if_pos hm1]
      exact ⟨_, rfl, Or.inl (by decide), fun h => absurd h hnx, fun _ _ => by decide⟩
    · rw [if_neg hm1]
      by_cases hn1 : n = sN1
      · rw [if_pos ⟨hn1, hm1⟩]
        exact ⟨_, rfl, Or.inl (by decide), fun h => absurd h hnx, fun _ _ => by decide⟩
      · rw [if_neg (fun h => hn1 h.1)]
        have hn0 : n = sN0 := by
          fin_cases hn
          · rfl
          · exact absurd rfl hn1
          · exact absurd rfl hnx
        rw [if_neg (fun h => h.elim (fun hh => hh hn0) hm1)]
        by_cases hg5 : gg = 5
        · rw [if_pos hg5]
          exact ⟨_, rfl, Or.inl (by decide), fun h => absurd h hnx, fun _ _ => by decide⟩
        · rw [if_neg hg5]
          have hgg4 : gg ≤ 4 := by omega
          rcases valid_t_cases t ht with ht12 | ht34 | htx
          · rw [if_neg (fun h => t12_not_t34 ht12 h.1)]
            rcases lt_or_le psa 20 with h20 | h20
            · rw [if_neg (fun h => absurd h20 (not_lt.mpr h.2.1))]
              by_cases hg34 : gg = 3 ∨ gg = 4
              · rw [if_pos ⟨ht12, h20, hg34⟩]
                exact ⟨_, rfl, Or.inl (by decide), fun h => absurd h hnx, fun _ _ => by decide⟩
              · rw [if_neg (fun h => hg34 h.2.2)]
                by_cases hg2 : gg = 2
                · rw [if_pos ⟨ht12, h20, hg2⟩]
                  exact ⟨_, rfl, Or.inl (by decide), fun h => absurd h hnx, fun _ _ => by decide⟩
                · rw [if_neg (fun h => hg2 h.2.2)]
                  have hg1 : gg = 1 := by omega
                  rcases ht12 with h2a | h2bc
                  · rcases lt_or_le psa 10 with h10 | h10
                    · rw [if_neg (fun h => absurd h10 (not_lt.mpr h.2.2.1))]
                      rw [if_neg (fun h => t2a_not_t2bc h2a h.2.1)]
                      rw [if_pos ⟨h2a, h10, hg1⟩]
                      exact ⟨_, rfl, Or.inl (by decide), fun h => absurd h hnx, fun _ _ => by decide⟩
                    · rw [if_pos ⟨hg1, h2a, h10, h20⟩]
                      exact ⟨_, rfl, Or.inl (by decide), fun h => absurd h hnx, fun _ _ => by decide⟩
                  · rw [if_neg (fun h => t2bc_not_t2a h2bc h.2.1)]
                    rw [if_pos ⟨hg1, h2bc, h20⟩]
                    exact ⟨_, rfl, Or.inl (by decide), fun h => absurd h hnx, fun _ _ => by decide⟩
            · rw [if_pos ⟨ht12, h20, hgg4⟩]
              exact ⟨_, rfl, Or.inl (by decide), fun h => absurd h hnx, fun _ _ => by decide⟩
          · rw [if_pos ⟨ht34, hgg4⟩]
            exact ⟨_, rfl, Or.inl (by decide), fun h => absurd h hnx, fun _ _ => by decide⟩
          · subst htx
            rw [if_neg (fun h => (by decide : ¬ is_t3_t4 sTX) h.1)]
            rw [if_neg (fun h => (by decide : ¬ is_t1_t2 sTX) h.1)]
            rw [if_neg (fun h => (by decide : ¬ is_t1_t2 sTX) h.1)]
            rw [if_neg (fun h => (by decide : ¬ is_t1_t2 sTX) h.1)]
            rw [if_neg (fun h => (by decide : ¬ is_t1_t2a sTX) h.2.1)]
            rw [if_neg (fun h => (by decide : ¬ is_t2b_c sTX) h.2.1)]
            rw [if_neg (fun h => (by decide : ¬ is_t1_t2a sTX) h.1)]
            exact ⟨_, rfl, Or.inr rfl, fun _ => rfl, fun ht' _ => absurd rfl ht'⟩

theorem capra_psa_points_mono {a b : ℚ} (h : a ≤ b) :
    capra_psa_points a ≤ capra_psa_points b := by
  unfold capra_psa_points
  split_ifs <;> first | omega | (exfalso; linarith)

theorem capra_psa_points_bounds (a : ℚ) :
    0 ≤ capra_psa_points a ∧ capra_psa_points a ≤ 4 := by
  unfold capra_psa_points
  split_ifs <;> omega

theorem capra_gleason_points_mono_primary {p p' s : ℤ} (h : p ≤ p') :
    capra_gleason_points p s ≤ capra_gleason_points p' s := by
  unfold capra_gleason_points
  split_ifs <;> omega

theorem capra_gleason_points_mono_secondary {p s s' : ℤ} (h : s ≤ s') :
    capra_gleason_points p s ≤ capra_gleason_points p s' := by
  unfold capra_gleason_points
  split_ifs <;> omega

theorem capra_gleason_points_bounds (p s : ℤ) :
    0 ≤ capra_gleason_points p s ∧ capra_gleason_points p s ≤ 3 := by
  unfold capra_gleason_points
  split_ifs <;> omega

theorem capra_t_points_bounds (t : Str) :
    0 ≤ capra_t_points t ∧ capra_t_points t ≤ 1 := by
  unfold capra_t_points
  split_ifs <;> omega

theorem capra_core_points_mono {a b : ℚ} (h : a ≤ b) :
    capra_core_points a ≤ capra_core_points b := by
  unfold capra_core_points
  split_ifs <;> first | omega | (exfalso; linarith)

theorem capra_core_points_bounds (a : ℚ) :
    0 ≤ capra_core_points a ∧ capra_core_points a ≤ 1 := by
  unfold capra_core_points
  split_ifs <;> omega

theorem capra_age_points_mono {a b : ℤ} (h : a ≤ b) :
    capra_age_points a ≤ capra_age_points b := by
  unfold capra_age_points
  split_ifs <;> omega

theorem capra_age_points_bounds (a : ℤ) :
    0 ≤ capra_age_points a ∧ capra_age_points a ≤ 1 := by
  unfold capra_age_points
  split_ifs <;> omega

theorem capra_s_psa_points_bounds (a : ℚ) :
    0 ≤ capra_s_psa_points a ∧ capra_s_psa_points a ≤ 3 := by
  unfold capra_s_psa_points
  split_ifs <;> omega

theorem capra_s_gleason_points_bounds (g : Str) :
    0 ≤ capra_s_gleason_points g ∧ capra_s_gleason_points g ≤ 3 := by
  simp only [capra_s_gleason_points]
  split_ifs <;> omega

/-! ## Claim theorems -/

/-- C1: the claim says `calculate_nccn_risk` realises the spec's NCCN
cascade, in particular classifying a qualifying T1c input as
"Very Low".  The code's normalisation deletes every letter C from the
token, so `T1c` becomes `T1`, which is in none of the membership lists
checked afterwards (the `t_stage == "T1C"` test on line 102 can never
succeed): the code answers "Unable to classify" where the spec's
cascade (`nccn_risk_spec`, differing only in the normalisation) answers
"Very Low". -/
theorem nccn_t1c_very_low_unreachable :
    calculate_nccn_risk 5 1 ("T1c".data) 1 12 10 (mkRat 1 10) none sN0 sM0
      = "Unable to classify" ∧
    nccn_risk_spec 5 1 ("T1c".data) 1 12 10 (mkRat 1 10) none sN0 sM0
      = "Very Low" ∧
    calculate_nccn_risk 5 1 ("T1c".data) 1 12 10 (mkRat 1 10) none sN0 sM0
      ≠ nccn_risk_spec 5 1 ("T1c".data) 1 12 10 (mkRat 1 10) none sN0 sM0 := by
  decide

/-- C2: the claim says every cascade's T-stage normalisation strips only
a leading c/p prefix, e.g. cT2c ↦ T2C and T1c ↦ T1C.  The shared
NCCN/EAU/CAPRA normalisation (`upper().replace("C","").replace("CT","T")`)
instead deletes every C, mapping cT2c ↦ T2 and T1c ↦ T1; the TNM/AJCC
normalisation does keep the trailing letter but never strips a leading
"p" (pT2a ↦ PT2A), while the spec's normalisation maps cT2c ↦ T2C and
pT2a ↦ T2A. -/
theorem t_stage_normalization_divergence :
    nccnNormalizeT ("cT2c".data) = sT2 ∧
    nccnNormalizeT ("T1c".data) = sT1 ∧
    specNormalizeT ("cT2c".data) = sT2C ∧
    tnmNormalizeT ("cT2c".data) = sT2C ∧
    tnmNormalizeT ("pT2a".data) = ("PT2A".data) ∧
    specNormalizeT ("pT2a".data) = sT2A := by
  decide

/-- C4: in the C.87.a high-risk mHSPC branch (metastatic,
hormone-sensitive, no global exclusion), Gleason 8 with 2 bone
metastases and no visceral metastases is 1 of 3 high-risk factors and
is never eligible whatever the ADT timing; raising the bone count to 3
gives 2 of 3 factors, and the verdict is eligible exactly when
`months_since_adt_start` is supplied and at most 3. -/
theorem abiraterone_mhspc_high_risk_gate (mo : Option ℚ) :
    (check_abiraterone_eligibility_poland ("mHSPC".data) true false (some 8)
        (some 2) false none false none none none false false false false false
        mo).eligible = false ∧
    ((check_abiraterone_eligibility_poland ("mHSPC".data) true false (some 8)
        (some 3) false none false none none none false false false false false
        mo).eligible = true ↔ ∃ m, mo = some m ∧ m ≤ 3) := by
  constructor
  · rfl
  · rcases mo with _ | m
    · rw [show (check_abiraterone_eligibility_poland ("mHSPC".data) true false
        (some 8) (some 3) false none false none none none false false false
        false false none).eligible = false from rfl]
      simp
    · show (if 3 < m then _ else _ : AbiResult).eligible = true ↔ _
      rw [apply_ite AbiResult.eligible]
      by_cases h3 : 3 < m
      · rw [if_pos h3]
        simp only [Option.some.injEq]
        constructor
        · intro h
          exact absurd h (by decide)
        · rintro ⟨m', rfl, hle⟩
          exact absurd h3 (not_lt.mpr hle)
      · rw [if_neg h3]
        simp only [Option.some.injEq]
        constructor
        · intro _
          exact ⟨m, rfl, le_of_not_lt h3⟩
        · intro _
          trivial

/-- C5 counterexample: for the valid input T=TX, N=N0, M=M0, PSA=5,
Grade Group 1, `calculate_tnm_stage` returns `ok: true` with prognostic
stage "Unable to classify" although N is N0, not NX — refuting the
claim that the indeterminate value occurs only when N is NX. -/
theorem tnm_tx_indeterminate_with_n0 :
    calculate_tnm_stage sTX sN0 sM0 (some 5) (some 1)
      = .ok sTX sN0 sM0 (some "Unable to classify") ∧ sN0 ≠ sNX := by
  decide

/-- C5 amended: for every valid T/N/M combination with PSA ≥ 0 and
Grade Group 1-5, `calculate_tnm_stage` returns `ok: true` and a
prognostic stage that is one of the nine defined groups or
"Unable to classify"; NX always yields "Unable to classify", and for
every T other than TX the indeterminate value occurs only when N is
NX. -/
theorem tnm_staging_totality (t n m : Str) (psa : ℚ) (gg : ℤ)
    (ht : t ∈ valid_t) (hn : n ∈ valid_n) (hm : m ∈ valid_m)
    (hpsa : 0 ≤ psa) (hgg1 : 1 ≤ gg) (hgg5 : gg ≤ 5) :
    tnmOk (calculate_tnm_stage t n m (some psa) (some gg)) = true ∧
    ∃ s, calculate_tnm_stage t n m (some psa) (some gg) = .ok t n m (some s) ∧
      (s ∈ ajccStageGroups ∨ s = "Unable to classify") ∧
      (n = sNX → s = "Unable to classify") ∧
      (t ≠ sTX → n ≠ sNX → s ∈ ajccStageGroups) := by
  obtain ⟨s, hs, h1, h2, h3⟩ := ajcc_analysis t n m psa gg ht hn hm hpsa hgg1 hgg5
  have key : calculate_tnm_stage t n m (some psa) (some gg) = .ok t n m (some s) := by
    simp only [calculate_tnm_stage, tnmNormalizeT_valid t ht, norm_valid_n n hn,
      norm_valid_m m hm]
    rw [if_neg (not_not_intro ht), if_neg (not_not_intro hn), if_neg (not_not_intro hm)]
    rw [hs]
  exact ⟨by rw [key]; rfl, s, key, h1, h2, h3⟩

/-- Witness for the C5 amended theorem at T2A/N0/M0, PSA 5, GG 1. -/
theorem tnm_staging_totality_witness :
    tnmOk (calculate_tnm_stage sT2A sN0 sM0 (some 5) (some 1)) = true ∧
    ∃ s, calculate_tnm_stage sT2A sN0 sM0 (some 5) (some 1) = .ok sT2A sN0 sM0 (some s) ∧
      (s ∈ ajccStageGroups ∨ s = "Unable to classify") ∧
      (sN0 = sNX → s = "Unable to classify") ∧
      (sT2A ≠ sTX → sN0 ≠ sNX → s ∈ ajccStageGroups) :=
  tnm_staging_totality sT2A sN0 sM0 5 1 (by decide) (by decide) (by decide)
    (by decide) (by decide) (by decide)

/-- C6 counterexample: increasing the T-stage from T3a to T3b lowers
the CAPRA score (only the exact token T3A scores a point), refuting
monotonicity of the total score in the T-stage. -/
theorem capra_t_stage_not_monotone :
    (calculate_capra 1 3 3 ("T3b".data) 0 30).score
      < (calculate_capra 1 3 3 ("T3a".data) 0 30).score := by
  decide

/-- C6 amended: the CAPRA total always lies in [0,10] and equals the
sum of the returned per-factor breakdown; it is monotonically
non-decreasing in PSA, in each Gleason pattern, in percent positive
cores and in age; the T-stage factor contributes 1 point exactly for
(normalised) T3A and 0 for every other stage, so the total is not
monotone across T3A → T3B; the CAPRA-S total always lies in [0,12]. -/
theorem capra_score_properties :
    (∀ psa pg sg t pct age, 0 ≤ (calculate_capra psa pg sg t pct age).score ∧
      (calculate_capra psa pg sg t pct age).score ≤ 10) ∧
    (∀ psa pg sg t pct age, (calculate_capra psa pg sg t pct age).score =
      (calculate_capra psa pg sg t pct age).breakdown.psa +
      (calculate_capra psa pg sg t pct age).breakdown.gleason +
      (calculate_capra psa pg sg t pct age).breakdown.t_stage +
      (calculate_capra psa pg sg t pct age).breakdown.cores +
      (calculate_capra psa pg sg t pct age).breakdown.age) ∧
    (∀ psa psa' pg sg t pct age, psa ≤ psa' →
      (calculate_capra psa pg sg t pct age).score ≤
      (calculate_capra psa' pg sg t pct age).score) ∧
    (∀ psa pg pg' sg t pct age, pg ≤ pg' →
      (calculate_capra psa pg sg t pct age).score ≤
      (calculate_capra psa pg' sg t pct age).score) ∧
    (∀ psa pg sg sg' t pct age, sg ≤ sg' →
      (calculate_capra psa pg sg t pct age).score ≤
      (calculate_capra psa pg sg' t pct age).score) ∧
    (∀ psa pg sg t pct pct' age, pct ≤ pct' →
      (calculate_capra psa pg sg t pct age).score ≤
      (calculate_capra psa pg sg t pct' age).score) ∧
    (∀ psa pg sg t pct age age', age ≤ age' →
      (calculate_capra psa pg sg t pct age).score ≤
      (calculate_capra psa pg sg t pct age').score) ∧
    (∀ psa pg sg t pct age, (calculate_capra psa pg sg t pct age).breakdown.t_stage =
      if nccnNormalizeT t = sT3A then 1 else 0) ∧
    (∀ ppsa g mrg e v l, 0 ≤ (calculate_capra_s ppsa g mrg e v l).score ∧
      (calculate_capra_s ppsa g mrg e v l).score ≤ 12) := by
  refine ⟨?_, ?_, ?_, ?_, ?_, ?_, ?_, ?_, ?_⟩
  · intro psa pg sg t pct age
    have h1 := capra_psa_points_bounds psa
    have h2 := capra_gleason_points_bounds pg sg
    have h3 := capra_t_points_bounds t
    have h4 := capra_core_points_bounds pct
    have h5 := capra_age_points_bounds age
    simp only [calculate_capra]
    omega
  · intro psa pg sg t pct age
    rfl
  · intro psa psa' pg sg t pct age h
    have := capra_psa_points_mono h
    simp only [calculate_capra]
    omega
  · intro psa pg pg' sg t pct age h
    have := capra_gleason_points_mono_primary (s := sg) h
    simp only [calculate_capra]
    omega
  · intro psa pg sg sg' t pct age h
    have := capra_gleason_points_mono_secondary (p := pg) h
    simp only [calculate_capra]
    omega
  · intro psa pg sg t pct pct' age h
    have := capra_core_points_mono h
    simp only [calculate_capra]
    omega
  · intro psa pg sg t pct age age' h
    have := capra_age_points_mono h
    simp only [calculate_capra]
    omega
  · intro psa pg sg t pct age
    rfl
  · intro ppsa g mrg e v l
    have h1 := capra_s_psa_points_bounds ppsa
    have h2 := capra_s_gleason_points_bounds g
    simp only [calculate_capra_s]
    split_ifs <;> omega

/-- Witness for the C6 amended theorem: the monotonicity conjuncts
applied at concrete factor increases, together with the range and
breakdown-sum conjuncts at a concrete input. -/
theorem capra_score_properties_witness :
    (0 ≤ (calculate_capra 5 3 4 sT2A 40 66).score ∧
      (calculate_capra 5 3 4 sT2A 40 66).score ≤ 10) ∧
    ((calculate_capra 1 1 1 sT1C 0 30).score ≤ (calculate_capra 2 1 1 sT1C 0 30).score) ∧
    ((calculate_capra 1 1 1 sT1C 0 30).score ≤ (calculate_capra 1 4 1 sT1C 0 30).score) ∧
    ((calculate_capra 1 1 1 sT1C 0 30).score ≤ (calculate_capra 1 1 4 sT1C 0 30).score) ∧
    ((calculate_capra 1 1 1 sT1C 0 30).score ≤ (calculate_capra 1 1 1 sT1C 40 30).score) ∧
    ((calculate_capra 1 1 1 sT1C 0 30).score ≤ (calculate_capra 1 1 1 sT1C 0 55).score) ∧
    (0 ≤ (calculate_capra_s 25 ("4+5".data) true true true true).score ∧
      (calculate_capra_s 25 ("4+5".data) true true true true).score ≤ 12) :=
  ⟨capra_score_properties.1 5 3 4 sT2A 40 66,
   capra_score_properties.2.2.1 1 2 1 1 sT1C 0 30 (by decide),
   capra_score_properties.2.2.2.1 1 1 4 1 sT1C 0 30 (by decide),
   capra_score_properties.2.2.2.2.1 1 1 1 4 sT1C 0 30 (by decide),
   capra_score_properties.2.2.2.2.2.1 1 1 1 sT1C 0 40 30 (by decide),
   capra_score_properties.2.2.2.2.2.2.1 1 1 1 sT1C 0 30 55 (by decide),
   capra_score_properties.2.2.2.2.2.2.2.2 25 ("4+5".data) true true true true⟩

/-- C3 counterexample: a patient with `prior_abiraterone = True`
(abiraterone started 2 months ago, no progression) is nevertheless
eligible for niraparib + abiraterone, refuting the claim that the
prior-abiraterone exclusion makes every drug check non-eligible. -/
theorem niraparib_eligible_despite_prior_abiraterone :
    (check_niraparib_abiraterone_eligibility 0 true 18 false false true none
      true false (some ("BRCA1".data)) ("unknown".data) true (some 2) false
      false false false (some 60)).eligible = true := by
  decide

theorem b56_eligible_ite_false {c : Prop} [Decidable c] {x y : B56Result}
    (hx : x.eligible = false) (hy : y.eligible = false) :
    (if c then x else y).eligible = false := by
  split_ifs <;> assumption

set_option maxHeartbeats 1000000 in
/-- C3 amended: `prior_abiraterone = True` forces a non-eligible
verdict in the abiraterone C.87 check and in the B.56 apalutamide,
darolutamide, enzalutamide and talazoparib+enzalutamide checks,
whatever the other inputs; the olaparib check takes no
prior-abiraterone input at all, and the niraparib+abiraterone check
tolerates prior abiraterone, returning non-eligible when it lasted
more than 4 months or when progression occurred on it. -/
theorem prior_abiraterone_exclusion_scope :
    (∀ ds hm cr gs bmc hvm pm art np ts pad sym pd af pnha msa,
      (check_abiraterone_eligibility_poland ds hm cr gs bmc hvm pm art np ts
        pad sym pd af pnha true msa).eligible = false) ∧
    (∀ ds ecog hc age hom hn hm tst pdt pv padt dstat bma bmo sh srf,
      (check_apalutamide_eligibility ds ecog hc age hom hn hm tst pdt pv true
        padt dstat bma bmo sh srf).eligible = false) ∧
    (∀ ds ecog hc age hom hn hm tst pdt pv padt bma bmo crd,
      (check_darolutamide_eligibility ds ecog hc age hom hn hm tst pdt pv true
        padt bma bmo crd).eligible = false) ∧
    (∀ ds ecog hc age hom hn hm tst pdt pv hpp hrp padt dstat bma bmo sh srf,
      (check_enzalutamide_eligibility ds ecog hc age hom hn hm tst pdt pv hpp
        hrp true padt dstat bma bmo sh srf).eligible = false) ∧
    (∀ ecog hc age hom hn hm tst hpp hrp hrr mt ppi pnsa ci crcl,
      (check_talazoparib_enzalutamide_eligibility ecog hc age hom hn hm tst
        hpp hrp hrr mt true ppi pnsa ci crcl).eligible = false) ∧
    (∀ ecog hc age hom hn hm tst hpp hrp brca mt am ap ppi pnsa ci crcl m,
      am = some m → 4 < m →
      (check_niraparib_abiraterone_eligibility ecog hc age hom hn hm tst hpp
        hrp brca mt true am ap ppi pnsa ci crcl).eligible = false) ∧
    (∀ ecog hc age hom hn hm tst hpp hrp brca mt am ppi pnsa ci crcl,
      (check_niraparib_abiraterone_eligibility ecog hc age hom hn hm tst hpp
        hrp brca mt true am true ppi pnsa ci crcl).eligible = false) := by
  refine ⟨?_, ?_, ?_, ?_, ?_, ?_, ?_⟩
  · intro ds hm cr gs bmc hvm pm art np ts pad sym pd af pnha msa
    rfl
  · intro ds ecog hc age hom hn hm tst pdt pv padt dstat bma bmo sh srf
    by_cases hg : (check_b56_general_criteria hc age ecog hom hn).eligible = true
    · simp only [check_apalutamide_eligibility]
      rw [if_neg (fun hc' => hc' hg)]
      rfl
    · simp only [check_apalutamide_eligibility]
      rw [if_pos hg]
      rfl
  · intro ds ecog hc age hom hn hm tst pdt pv padt bma bmo crd
    by_cases hg : (check_b56_general_criteria hc age ecog hom hn).eligible = true
    · simp only [check_darolutamide_eligibility]
      rw [if_neg (fun hc' => hc' hg)]
      rfl
    · simp only [check_darolutamide_eligibility]
      rw [if_pos hg]
      rfl
  · intro ds ecog hc age hom hn hm tst pdt pv hpp hrp padt dstat bma bmo sh srf
    by_cases hg : (check_b56_general_criteria hc age ecog hom hn).eligible = true
    · simp only [check_enzalutamide_eligibility]
      rw [if_neg (fun hc' => hc' hg)]
      rfl
    · simp only [check_enzalutamide_eligibility]
      rw [if_pos hg]
      rfl
  · intro ecog hc age hom hn hm tst hpp hrp hrr mt ppi pnsa ci crcl
    exact b56_eligible_ite_false rfl (b56_eligible_ite_false rfl
      (b56_eligible_ite_false rfl (b56_eligible_ite_false rfl
      (b56_eligible_ite_false rfl (b56_eligible_ite_false rfl
      (b56_eligible_ite_false rfl (b56_eligible_ite_false rfl (by rfl))))))))
  · intro ecog hc age hom hn hm tst hpp hrp brca mt am ap ppi pnsa ci crcl m ham h4
    subst ham
    have hgt : optSomeGt (some m) 4 = true := by
      simp [optSomeGt, h4]
    exact b56_eligible_ite_false rfl (b56_eligible_ite_false rfl
      (b56_eligible_ite_false rfl (b56_eligible_ite_false rfl
      (b56_eligible_ite_false rfl (b56_eligible_ite_false rfl
      (b56_eligible_ite_false rfl (b56_eligible_ite_false rfl
      (b56_eligible_ite_false rfl
        (by rw [if_pos (And.intro rfl hgt)]; rfl)))))))))
  · intro ecog hc age hom hn hm tst hpp hrp brca mt am ppi pnsa ci crcl
    exact b56_eligible_ite_false rfl (b56_eligible_ite_false rfl
      (b56_eligible_ite_false rfl (b56_eligible_ite_false rfl
      (b56_eligible_ite_false rfl (b56_eligible_ite_false rfl
      (b56_eligible_ite_false rfl (b56_eligible_ite_false rfl
      (b56_eligible_ite_false rfl (b56_eligible_ite_false rfl (by rfl))))))))))

/-- Witness for the C3 amended theorem: the hypothesis-bearing
niraparib conjunct applied at a concrete >4-months input, and the
other conjuncts at concrete inputs. -/
theorem prior_abiraterone_exclusion_scope_witness :
    (check_abiraterone_eligibility_poland ("mHSPC".data) true false (some 8)
      (some 3) false none false none none none false false false false true
      (some 2)).eligible = false ∧
    (check_apalutamide_eligibility ("mHSPC".data) 0 true 18 false false true
      none none none true none ("completed".data) false false false
      false).eligible = false ∧
    (check_darolutamide_eligibility ("mHSPC".data) 0 true 18 false false true
      none none none true none false false true).eligible = false ∧
    (check_enzalutamide_eligibility ("mHSPC".data) 0 true 18 false false true
      none none none true true true none ("completed".data) false false false
      false).eligible = false ∧
    (check_talazoparib_enzalutamide_eligibility 0 true 18 false false true
      none true false (some [("BRCA1".data)]) ("unknown".data) true false
      false false (some 60)).eligible = false ∧
    (check_niraparib_abiraterone_eligibility 0 true 18 false false true none
      true false (some ("BRCA1".data)) ("unknown".data) true (some 5) false
      false false false (some 60)).eligible = false ∧
    (check_niraparib_abiraterone_eligibility 0 true 18 false false true none
      true false (some ("BRCA1".data)) ("unknown".data) true (some 2) true
      false false false (some 60)).eligible = false :=
  ⟨prior_abiraterone_exclusion_scope.1 ("mHSPC".data) true false (some 8)
      (some 3) false none false none none none false false false false (some 2),
   prior_abiraterone_exclusion_scope.2.1 ("mHSPC".data) 0 true 18 false false
      true none none none none ("completed".data) false false false false,
   prior_abiraterone_exclusion_scope.2.2.1 ("mHSPC".data) 0 true 18 false
      false true none none none none false false true,
   prior_abiraterone_exclusion_scope.2.2.2.1 ("mHSPC".data) 0 true 18 false
      false true none none none true true none ("completed".data) false false
      false false,
   prior_abiraterone_exclusion_scope.2.2.2.2.1 0 true 18 false false true
      none true false (some [("BRCA1".data)]) ("unknown".data) false false
      false (some 60),
   prior_abiraterone_exclusion_scope.2.2.2.2.2.1 0 true 18 false false true
      none true false (some ("BRCA1".data)) ("unknown".data) (some 5) false
      false false false (some 60) 5 rfl (by decide),
   prior_abiraterone_exclusion_scope.2.2.2.2.2.2 0 true 18 false false true
      none true false (some ("BRCA1".data)) ("unknown".data) (some 2) false
      false false (some 60)⟩

/-- C7: with fewer than 3 values `calculate_psadt` reports the
too-few-values error; with 3 or more values but an observation span
under 90 days it reports the short-observation error; with
`require_rising` and a non-rising time-adjacent pair the result is
always `ok: False`, and when the values also pass the positivity and
minimum-PSA screens the reason is specifically the non-rising pair.
The embedding is a total function, so no input raises. -/
theorem psadt_validation_errors (vals : List (ℚ × ℚ)) (rr : Bool) :
    (vals.length < 3 → calculate_psadt vals rr = .error .tooFewValues) ∧
    (¬ vals.length < 3 → obsSpan vals < 90 →
      calculate_psadt vals rr = .error .shortObservation) ∧
    (¬ vals.length < 3 →
      allRising ((sortByTime vals).map Prod.snd) = false →
      psadtOk (calculate_psadt vals true) = false) ∧
    (¬ vals.length < 3 → ¬ obsSpan vals < 90 →
      (∀ p ∈ (sortByTime vals).map Prod.snd, mkRat 1 5 ≤ p) →
      allRising ((sortByTime vals).map Prod.snd) = false →
      calculate_psadt vals true = .error .notRising) := by
  refine ⟨?_, ?_, ?_, ?_⟩
  · intro h
    simp only [calculate_psadt]
    rw [if_pos h]
  · intro h1 h2
    simp only [calculate_psadt]
    rw [if_neg h1, if_pos h2]
  · intro h1 hr
    have hcond : (True ∧ ¬ allRising ((sortByTime vals).map Prod.snd) = true) :=
      ⟨trivial, by simp [hr]⟩
    simp only [calculate_psadt]
    rw [if_neg h1]
    split_ifs <;> first | rfl | exact absurd hcond (by assumption)
  · intro h1 h2 hall hr
    have hcond : (True ∧ ¬ allRising ((sortByTime vals).map Prod.snd) = true) :=
      ⟨trivial, by simp [hr]⟩
    simp only [calculate_psadt]
    rw [if_neg h1, if_neg h2]
    split_ifs with hA hB hC
    · exfalso
      rcases List.any_eq_true.mp hA with ⟨p, hp, hple⟩
      have := hall p hp
      simp only [decide_eq_true_eq] at hple
      have : (0 : ℚ) < p := lt_of_lt_of_le (by norm_num) this
      linarith
    · exfalso
      rcases List.any_eq_true.mp hB with ⟨p, hp, hplt⟩
      have := hall p hp
      simp only [decide_eq_true_eq] at hplt
      linarith
    · rfl
    all_goals exact absurd hcond (by assumption)

/-- Witness for C7: each conjunct applied at a concrete input — a
2-value series, a 3-value 20-day series, and a 3-value non-rising
series (for both the ok-false and the specific-reason conjuncts). -/
theorem psadt_validation_errors_witness :
    calculate_psadt [(0, 1), (10, 2)] true = .error .tooFewValues ∧
    calculate_psadt [(0, 1), (10, 2), (20, 4)] true = .error .shortObservation ∧
    psadtOk (calculate_psadt [(0, 2), (50, 1), (100, 3)] true) = false ∧
    calculate_psadt [(0, 2), (50, 1), (100, 3)] true = .error .notRising :=
  ⟨(psadt_validation_errors [(0, 1), (10, 2)] true).1 (by decide),
   (psadt_validation_errors [(0, 1), (10, 2), (20, 4)] true).2.1 (by decide) (by decide),
   (psadt_validation_errors [(0, 2), (50, 1), (100, 3)] true).2.2.1 (by decide) (by decide),
   (psadt_validation_errors [(0, 2), (50, 1), (100, 3)] true).2.2.2 (by decide) (by decide)
     (by decide) (by decide)⟩

/-- C8: the EMBARK flag of `eau_bcr_risk` is true exactly when
`psadt_months ≤ 9` and a current PSA is supplied with value `≥ 1.0`;
when the PSA is absent the note is the distinct
"requires PSA value" message instead of a plain ineligibility note. -/
theorem embark_eligibility_criteria (pm : ℚ) (gg : ℤ) (tb cp : Option ℚ) :
    ((eau_bcr_risk pm gg tb cp).embark_eligible = true ↔
      (pm ≤ 9 ∧ ∃ p, cp = some p ∧ 1 ≤ p)) ∧
    (cp = none → (eau_bcr_risk pm gg tb cp).embark_note = .requiresPsaValue) := by
  constructor
  · rcases cp with _ | p
    · simp [eau_bcr_risk]
    · simp [eau_bcr_risk]
  · intro h
    subst h
    rfl

/-- Witness for C8: the criteria applied at PSADT 8 months with PSA 2
(eligible) and at an absent PSA (the requires-PSA note). -/
theorem embark_eligibility_criteria_witness :
    (eau_bcr_risk 8 1 none (some 2)).embark_eligible = true ∧
    (eau_bcr_risk 8 1 none none).embark_note = .requiresPsaValue :=
  ⟨(embark_eligibility_criteria 8 1 none (some 2)).1.mpr
      ⟨by decide, 2, rfl, by decide⟩,
   (embark_eligibility_criteria 8 1 none none).2 rfl⟩

/-- C10: `eau_bcr_risk` always answers "High Risk BCR" or
"Low Risk BCR"; the "Indeterminate" branch is unreachable because
whenever no high-risk factor fires, both the PSADT and the Grade Group
low-risk criteria are recorded, so at least two low-risk criteria are
always met. -/
theorem eau_bcr_no_indeterminate (pm : ℚ) (gg : ℤ) (tb cp : Option ℚ) :
    (eau_bcr_risk pm gg tb cp).risk_group = "High Risk BCR" ∨
    (eau_bcr_risk pm gg tb cp).risk_group = "Low Risk BCR" := by
  by_cases h1 : pm ≤ 12
  · left
    simp [eau_bcr_risk, h1]
  · by_cases h2 : 4 ≤ gg
    · left
      simp [eau_bcr_risk, h1, h2]
    · right
      rcases tb with _ | t
      · simp [eau_bcr_risk, h1, h2]
      · by_cases h3 : 18 < t <;> simp [eau_bcr_risk, h1, h2, h3]

/-- C9: on the perfectly rising geometric series (0,1.0), (90,2.0),
(180,4.0), `calculate_psadt` succeeds (`ok: true`) with a strictly
positive slope — the regression slope is exactly log 2 / 90 per day —
and a `psadt_days` within 0.1 of 90 (0.693/(log 2/90) ≈ 89.98, which
the code's rounding reports as 90). -/
theorem psadt_geometric_doubling :
    ∃ s d mo, calculate_psadt [(0, 1), (90, 2), (180, 4)] true = .success s d mo ∧
      0 < s ∧ |d - 90| < 1 / 10 := by
  have hsort : sortByTime [(0, 1), (90, 2), (180, 4)] = [(0, 1), (90, 2), (180, 4)] := by
    decide
  simp only [calculate_psadt, hsort, obsSpan, ratSub_eq]
  norm_num [allRising, List.any_cons, List.any_nil, Rat.mkRat_eq_div]
  have hlog4 : Real.log 4 = 2 * Real.log 2 := by
    rw [show (4 : ℝ) = 2 ^ 2 by norm_num, Real.log_pow]
    push_cast
    ring
  rw [hlog4]
  have hslope : (3 * (90 * Real.log 2 + 180 * (2 * Real.log 2)) -
      270 * (Real.log 2 + 2 * Real.log 2)) / 48600 = Real.log 2 / 90 := by
    ring
  rw [hslope]
  have hl := Real.log_pos (by norm_num : (1 : ℝ) < 2)
  have hpos : (0 : ℝ) < Real.log 2 / 90 := div_pos hl (by norm_num)
  rw [if_neg (not_le.mpr hpos)]
  refine ⟨_, _, ⟨_, rfl⟩, hpos, ?_⟩
  have hu : Real.log 2 < 0.6931471808 := Real.log_two_lt_d9
  have hlo : (0.6931471803 : ℝ) < Real.log 2 := Real.log_two_gt_d9
  rw [abs_lt]
  constructor
  · have h2 : (89.9 : ℝ) < 693 / 1000 / (Real.log 2 / 90) := by
      rw [lt_div_iff₀ hpos]
      nlinarith [hu]
    linarith
  · have h2 : (693 : ℝ) / 1000 / (Real.log 2 / 90) < 90.1 := by
      rw [div_lt_iff₀ hpos]
      nlinarith [hlo]
    linarith
